import Mathlib

/-!
# Verification of the Chip-8 virtual-machine core

Shallow embedding of `src/chip8.rs` (the `VirtualMachine` struct, its
operation handlers, the opcode dispatcher and `reset`).  Machine integers
are modelled as `Nat` with explicit `% 2^w` wherever the Rust code wraps;
`f32` settings values are modelled over `ℚ` (the `as u64` cast truncates
toward zero and clamps below at zero); `std::time::Duration` values are
modelled as `Nat` nanosecond counts (`Duration` saturating addition cannot
saturate at the magnitudes involved, so plain `Nat` addition is used).
Rust panics (array index out of bounds, empty-stack `expect`, unknown
opcode) are modelled by the `halt` outcome.  Fields of functional type
(`Nat → Nat`, `Nat → Bool`) model the fixed-size Rust arrays; their
semantic domain is the array's index range.
-/

set_option maxRecDepth 10000

namespace Chip8

/-- The `u16::swap_bytes` operation restricted to values below `2^16`. -/
def swapBytes16 (n : Nat) : Nat := (n % 256) * 256 + (n / 256) % 256

/-- The `u8::reverse_bits` operation: bit `k` of the result is bit
`7 - k` of the input. -/
def reverseBits8 (b : Nat) : Nat :=
  (List.range 8).foldl (fun acc k => acc + (b / 2 ^ (7 - k) % 2) * 2 ^ k) 0

/-- The `u8::overflowing_add` operation: wrapped sum and carry flag. -/
def overflowingAdd8 (a b : Nat) : Nat × Bool :=
  ((a + b) % 256, decide (255 < a + b))

/-- The `u8::overflowing_sub` operation: wrapped difference and the
borrow flag. -/
def overflowingSub8 (a b : Nat) : Nat × Bool :=
  ((a + 256 - b) % 256, decide (a < b))

/-- The `Chip8Settings` record from `src/configuration.rs` (the
`program_folder_path` field plays no role in the VM and is omitted).
`execution_speed_multiple` is an `f32` in the source, modelled over `ℚ`. -/
structure Chip8Settings where
  shift_quirk : Bool
  or_and_xor_quirk : Bool
  mem_quirk : Bool
  sprite_wrapping_quirk : Bool
  jump_offset_quirk : Bool
  execution_speed_multiple : ℚ
  font_memory_starting_location : Nat

/-- The `VirtualMachine` struct from `src/chip8.rs`.  `mem` stands for the
4096-byte array, `v` for the sixteen 8-bit registers, `fb` for the 2048
frame-buffer cells, `keypad`/`keypad_shadow` for the sixteen key flags,
and `font_locations` for the sixteen font start addresses; `frame_time`
is the frame-time accumulator in nanoseconds. -/
structure VirtualMachine where
  mem : Nat → Nat
  v : Nat → Nat
  i : Nat
  stack : List Nat
  pc : Nat
  delay_timer : Nat
  sound_timer : Nat
  keypad : Nat → Bool
  keypad_shadow : Nat → Bool
  fb : Nat → Bool
  draw_flag : Bool
  font_locations : Nat → Nat
  frame_time : Nat
  settings : Chip8Settings

/-- The `MAX_FRAME_TIME` constant, 16,666,667 nanoseconds. -/
def MAX_FRAME_TIME_NS : Nat := 16666667

/-- The cost `Duration::from_micros((base * multiple) as u64)` as a
nanosecond count: the common cost computation at the top of every handler.
All the base cost constants in the source are integral `f32` literals, so
`base` is a `Nat` here; the product with the rational multiplier is
truncated toward zero and clamped below at zero, exactly the behaviour of
the Rust `as u64` cast on a nonnegative or negative finite value. -/
def opDurNs (s : Chip8Settings) (baseMicros : Nat) : Nat :=
  (((baseMicros : Int) * s.execution_speed_multiple.num) /
    (s.execution_speed_multiple.den : Int)).toNat * 1000

/-- Outcome of one handler (or of dispatch): `halt` models a Rust panic,
`deferred` models the early `return None` taken when the operation cost
would overrun the frame budget, and `ran` models `Some(op_duration)`
together with the mutated machine. -/
inductive StepResult where
  | halt : StepResult
  | deferred (vm : VirtualMachine) : StepResult
  | ran (vm : VirtualMachine) (costNs : Nat) : StepResult

/-- The budget guard shared verbatim by every operation handler:
compute the operation duration, defer (mutating nothing) if it would push
`frame_time` past the frame budget, otherwise run the handler body. -/
def budgeted (vm : VirtualMachine) (baseMicros : Nat)
    (body : Nat → StepResult) : StepResult :=
  let opDur := opDurNs vm.settings baseMicros
  if MAX_FRAME_TIME_NS < vm.frame_time + opDur then .deferred vm
  else body opDur

/-- Operand field `n`: lowest nibble of the opcode. -/
def opN (op : Nat) : Nat := op &&& 0x000f

/-- Operand field `nn`: lowest byte of the opcode. -/
def opNN (op : Nat) : Nat := op &&& 0x00ff

/-- Operand field `nnn`: lowest 12 bits of the opcode. -/
def opNNN (op : Nat) : Nat := op &&& 0x0fff

/-- Register index `x`: `(opcode & 0x0f00).swap_bytes()`. -/
def opX (op : Nat) : Nat := swapBytes16 (op &&& 0x0f00)

/-- Register index `y`: `(opcode & 0x00f0) >> 4`. -/
def opY (op : Nat) : Nat := (op &&& 0x00f0) >>> 4

/-- The `invalid_operation` handler: panics on an unrecognized opcode. -/
def invalid_operation : StepResult := .halt

/-- Opcode 0NNN `call_routine`: does literally nothing except advance the PC. -/
def call_routine (vm : VirtualMachine) (_nnn : Nat) : StepResult :=
  budgeted vm 100 (fun d => .ran { vm with pc := vm.pc + 2 } d)

/-- Opcode 00E0 `clear_display`: clears the frame buffer. -/
def clear_display (vm : VirtualMachine) : StepResult :=
  budgeted vm 109 (fun d =>
    .ran { vm with fb := fun _ => false, pc := vm.pc + 2 } d)

/-- Opcode 00EE `subroutine_return`: PC is set to the address on top of the stack
(panic when the stack is empty), the address is popped, then PC += 2.  The
stack is modelled head-first: the list head is the most recently pushed
entry (`Vec::last`/`Vec::pop` act on the head). -/
def subroutine_return (vm : VirtualMachine) : StepResult :=
  budgeted vm 105 (fun d =>
    match vm.stack with
    | [] => .halt
    | a :: rest => .ran { vm with pc := a + 2, stack := rest } d)

/-- Opcode 1NNN `jump_to_nnn`: PC = nnn. -/
def jump_to_nnn (vm : VirtualMachine) (nnn : Nat) : StepResult :=
  budgeted vm 105 (fun d => .ran { vm with pc := nnn } d)

/-- Opcode 2NNN `call_subroutine`: push PC, then PC = nnn. -/
def call_subroutine (vm : VirtualMachine) (nnn : Nat) : StepResult :=
  budgeted vm 105 (fun d =>
    .ran { vm with stack := vm.pc :: vm.stack, pc := nnn } d)

/-- Opcode 3XNN `skip_if_eq_nn`: skip the next instruction when Vx = nn. -/
def skip_if_eq_nn (vm : VirtualMachine) (x nn : Nat) : StepResult :=
  budgeted vm 61 (fun d =>
    let pc1 := if vm.v x = nn then vm.pc + 2 else vm.pc
    .ran { vm with pc := pc1 + 2 } d)

/-- Opcode 4XNN `skip_if_neq_nn`: skip the next instruction when Vx ≠ nn. -/
def skip_if_neq_nn (vm : VirtualMachine) (x nn : Nat) : StepResult :=
  budgeted vm 61 (fun d =>
    let pc1 := if vm.v x ≠ nn then vm.pc + 2 else vm.pc
    .ran { vm with pc := pc1 + 2 } d)

/-- Opcode 5XY0 `skip_if_eq`: skip the next instruction when Vx = Vy. -/
def skip_if_eq (vm : VirtualMachine) (x y : Nat) : StepResult :=
  budgeted vm 61 (fun d =>
    let pc1 := if vm.v x = vm.v y then vm.pc + 2 else vm.pc
    .ran { vm with pc := pc1 + 2 } d)

/-- Opcode 6XNN `set_vx_to_nn`: Vx = nn. -/
def set_vx_to_nn (vm : VirtualMachine) (x nn : Nat) : StepResult :=
  budgeted vm 27 (fun d =>
    .ran { vm with v := Function.update vm.v x nn, pc := vm.pc + 2 } d)

/-- Opcode 7XNN `add_nn_to_vx`: Vx = Vx + nn wrapping, no flag. -/
def add_nn_to_vx (vm : VirtualMachine) (x nn : Nat) : StepResult :=
  budgeted vm 45 (fun d =>
    .ran { vm with v := Function.update vm.v x ((vm.v x + nn) % 256),
                   pc := vm.pc + 2 } d)

/-- Opcode 8XY0 `clone`: Vx = Vy. -/
def clone (vm : VirtualMachine) (x y : Nat) : StepResult :=
  budgeted vm 45 (fun d =>
    .ran { vm with v := Function.update vm.v x (vm.v y), pc := vm.pc + 2 } d)

/-- Opcode 8XY1 `or`: Vx = Vx OR Vy; with the logic quirk, VF is then zeroed. -/
def or (vm : VirtualMachine) (x y : Nat) : StepResult :=
  budgeted vm 200 (fun d =>
    let v1 := Function.update vm.v x (Nat.lor (vm.v x) (vm.v y))
    let v2 := if vm.settings.or_and_xor_quirk then Function.update v1 15 0 else v1
    .ran { vm with v := v2, pc := vm.pc + 2 } d)

/-- Opcode 8XY2 `and`: Vx = Vx AND Vy; with the logic quirk, VF is then zeroed. -/
def and (vm : VirtualMachine) (x y : Nat) : StepResult :=
  budgeted vm 200 (fun d =>
    let v1 := Function.update vm.v x (Nat.land (vm.v x) (vm.v y))
    let v2 := if vm.settings.or_and_xor_quirk then Function.update v1 15 0 else v1
    .ran { vm with v := v2, pc := vm.pc + 2 } d)

/-- Opcode 8XY3 `xor`: Vx = Vx XOR Vy; with the logic quirk, VF is then zeroed. -/
def xor (vm : VirtualMachine) (x y : Nat) : StepResult :=
  budgeted vm 200 (fun d =>
    let v1 := Function.update vm.v x (Nat.xor (vm.v x) (vm.v y))
    let v2 := if vm.settings.or_and_xor_quirk then Function.update v1 15 0 else v1
    .ran { vm with v := v2, pc := vm.pc + 2 } d)

/-- Opcode 8XY4 `add`: Vx = Vx + Vy wrapping, then VF = carry. -/
def add (vm : VirtualMachine) (x y : Nat) : StepResult :=
  budgeted vm 45 (fun d =>
    let result := overflowingAdd8 (vm.v x) (vm.v y)
    let v1 := Function.update vm.v x result.1
    let v2 := Function.update v1 15 (if result.2 then 1 else 0)
    .ran { vm with v := v2, pc := vm.pc + 2 } d)

/-- Opcode 8XY5 `subtract_vy_from_vx`: Vx = Vx - Vy wrapping, then VF = no-borrow. -/
def subtract_vy_from_vx (vm : VirtualMachine) (x y : Nat) : StepResult :=
  budgeted vm 200 (fun d =>
    let result := overflowingSub8 (vm.v x) (vm.v y)
    let v1 := Function.update vm.v x result.1
    let v2 := Function.update v1 15 (if result.2 then 0 else 1)
    .ran { vm with v := v2, pc := vm.pc + 2 } d)

/-- Opcode 8XY6 `shift_right`: without the shift quirk first Vx = Vy; VF receives
the bit shifted out; Vx >>= 1. -/
def shift_right (vm : VirtualMachine) (x y : Nat) : StepResult :=
  budgeted vm 200 (fun d =>
    let v0 := if !vm.settings.shift_quirk then Function.update vm.v x (vm.v y) else vm.v
    let bit_shifted_out := Nat.land (v0 x) 1
    let v1 := Function.update v0 x (v0 x / 2)
    let v2 := Function.update v1 15 bit_shifted_out
    .ran { vm with v := v2, pc := vm.pc + 2 } d)

/-- Opcode 8XY7 `subtract_vx_from_vy`: Vx = Vy - Vx wrapping, then VF = no-borrow. -/
def subtract_vx_from_vy (vm : VirtualMachine) (x y : Nat) : StepResult :=
  budgeted vm 200 (fun d =>
    let result := overflowingSub8 (vm.v y) (vm.v x)
    let v1 := Function.update vm.v x result.1
    let v2 := Function.update v1 15 (if result.2 then 0 else 1)
    .ran { vm with v := v2, pc := vm.pc + 2 } d)

/-- Opcode 8XYE `shift_left`: without the shift quirk first Vx = Vy; VF receives
the bit shifted out; Vx <<= 1 wrapping. -/
def shift_left (vm : VirtualMachine) (x y : Nat) : StepResult :=
  budgeted vm 200 (fun d =>
    let v0 := if !vm.settings.shift_quirk then Function.update vm.v x (vm.v y) else vm.v
    let bit_shifted_out := (Nat.land (v0 x) 0b10000000) >>> 7
    let v1 := Function.update v0 x ((v0 x * 2) % 256)
    let v2 := Function.update v1 15 bit_shifted_out
    .ran { vm with v := v2, pc := vm.pc + 2 } d)

/-- Opcode 9XY0 `skip_if_neq`: skip the next instruction when Vx ≠ Vy. -/
def skip_if_neq (vm : VirtualMachine) (x y : Nat) : StepResult :=
  budgeted vm 61 (fun d =>
    let pc1 := if vm.v x ≠ vm.v y then vm.pc + 2 else vm.pc
    .ran { vm with pc := pc1 + 2 } d)

/-- Opcode ANNN `set_i_to_nnn`: I = nnn. -/
def set_i_to_nnn (vm : VirtualMachine) (nnn : Nat) : StepResult :=
  budgeted vm 55 (fun d => .ran { vm with i := nnn, pc := vm.pc + 2 } d)

/-- Opcode BNNN `jump_to_v0_plus_nnn`: PC = nnn + V0 (with the jump-offset quirk,
PC = nnn + Vx where x is the high nibble of nnn), wrapping as `u16`. -/
def jump_to_v0_plus_nnn (vm : VirtualMachine) (nnn : Nat) : StepResult :=
  budgeted vm 105 (fun d =>
    if vm.settings.jump_offset_quirk then
      let x := swapBytes16 (nnn &&& 0xf00)
      .ran { vm with pc := (nnn + vm.v x) % 65536 } d
    else
      .ran { vm with pc := (nnn + vm.v 0) % 65536 } d)

/-- Opcode CXNN `random_and_nn`: Vx = nn AND a random byte (the random byte is an
external input and is passed in as the `rnd` argument). -/
def random_and_nn (vm : VirtualMachine) (x nn rnd : Nat) : StepResult :=
  budgeted vm 164 (fun d =>
    .ran { vm with v := Function.update vm.v x (Nat.land nn rnd),
                   pc := vm.pc + 2 } d)

/-- One iteration of the pixel loop of `draw_sprite`: read the frame
buffer cell `fb_pixel_index`, and when the sprite pixel is set, XOR the
cell (off becomes on; on becomes off and records a collision). -/
def drawPixelStep (fb : Nat → Bool) (col : Bool)
    (fb_pixel_index sprite_pixel : Nat) : (Nat → Bool) × Bool :=
  let fb_pixel := fb fb_pixel_index
  if sprite_pixel = 1 then
    match fb_pixel with
    | false => (Function.update fb fb_pixel_index true, col)
    | true => (Function.update fb fb_pixel_index false, true)
  else (fb, col)

/-- The inner pixel loop of `draw_sprite` (`'set_fb_pixel`): walks the 8
bits of a (bit-reversed) sprite row starting at bit `cp` with `rem`
iterations remaining, breaking when the pixel would fall off the right
edge.  Returns the updated frame buffer, the collision flag, and the list
of frame-buffer indices read during the walk (every written index is also
read first, so the list covers all accesses). -/
def drawPixels (x yRow spriteRow : Nat) :
    Nat → Nat → (Nat → Bool) → Bool → ((Nat → Bool) × Bool × List Nat)
  | _, 0, fb, col => (fb, col, [])
  | cp, rem + 1, fb, col =>
    if 63 < x + cp then (fb, col, [])
    else
      let fb_pixel_index := yRow * 64 + (x + cp)
      let sprite_pixel := (spriteRow >>> cp) % 2
      let next := drawPixelStep fb col fb_pixel_index sprite_pixel
      let rest := drawPixels x yRow spriteRow (cp + 1) rem next.1 next.2
      (rest.1, rest.2.1, fb_pixel_index :: rest.2.2)

/-- The outer row loop of `draw_sprite` (`'get_sprite_rows`): walks sprite
rows starting at row `cr` with `rem` rows remaining, breaking when the row
would fall off the bottom edge.  Reading a sprite byte outside the 4096
memory cells is the Rust panic, modelled by a `none` result; the second
component accumulates the frame-buffer access trace up to that point. -/
def drawRows (mem : Nat → Nat) (i x y : Nat) :
    Nat → Nat → (Nat → Bool) → Bool →
    (Option ((Nat → Bool) × Bool)) × List Nat
  | _, 0, fb, col => (some (fb, col), [])
  | cr, rem + 1, fb, col =>
    if 31 < y + cr then (some (fb, col), [])
    else if i + cr < 4096 then
      let sprite_row := reverseBits8 (mem (i + cr))
      let p := drawPixels x (y + cr) sprite_row 0 8 fb col
      let rest := drawRows mem i x y (cr + 1) rem p.1 p.2.1
      (rest.1, p.2.2 ++ rest.2)
    else (none, [])

/-- The effective sprite start column: Vx, reduced mod 64 when the
sprite-wrapping quirk is enabled. -/
def drawStartX (vm : VirtualMachine) (x : Nat) : Nat :=
  if vm.settings.sprite_wrapping_quirk then vm.v x % 64 else vm.v x

/-- The effective sprite start row: Vy, reduced mod 32 when the
sprite-wrapping quirk is enabled. -/
def drawStartY (vm : VirtualMachine) (y : Nat) : Nat :=
  if vm.settings.sprite_wrapping_quirk then vm.v y % 32 else vm.v y

/-- Opcode DXYN `draw_sprite`: XOR-composite an n-row sprite read from memory at
I onto the frame buffer at (Vx, Vy); VF = 1 iff any pixel was erased. -/
def draw_sprite (vm : VirtualMachine) (x y n : Nat) : StepResult :=
  budgeted vm 10734 (fun d =>
    match (drawRows vm.mem vm.i (drawStartX vm x) (drawStartY vm y)
        0 n vm.fb false).1 with
    | none => .halt
    | some (fb', collision) =>
      .ran { vm with fb := fb',
                     v := Function.update vm.v 15 (if collision then 1 else 0),
                     pc := vm.pc + 2 } d)

/-- The frame-buffer indices accessed by one `draw_sprite` invocation. -/
def drawTrace (vm : VirtualMachine) (x y n : Nat) : List Nat :=
  (drawRows vm.mem vm.i (drawStartX vm x) (drawStartY vm y) 0 n vm.fb false).2

/-- Opcode EX9E `skip_if_pressed`: skip when key Vx&0xF is currently down. -/
def skip_if_pressed (vm : VirtualMachine) (x : Nat) : StepResult :=
  budgeted vm 73 (fun d =>
    let key := Nat.land (vm.v x) 0xf
    let pc1 := if vm.keypad key then vm.pc + 2 else vm.pc
    .ran { vm with pc := pc1 + 2 } d)

/-- Opcode EXA1 `skip_if_not_pressed`: skip when key Vx&0xF is currently up. -/
def skip_if_not_pressed (vm : VirtualMachine) (x : Nat) : StepResult :=
  budgeted vm 73 (fun d =>
    let key := Nat.land (vm.v x) 0xf
    let pc1 := if !vm.keypad key then vm.pc + 2 else vm.pc
    .ran { vm with pc := pc1 + 2 } d)

/-- Opcode FX07 `clone_dt_into_vx`: Vx = delay timer. -/
def clone_dt_into_vx (vm : VirtualMachine) (x : Nat) : StepResult :=
  budgeted vm 27 (fun d =>
    .ran { vm with v := Function.update vm.v x vm.delay_timer,
                   pc := vm.pc + 2 } d)

/-- The early-returning `for` loop of `store_keypress`: the first key index
from `k` (with `rem` indices remaining) whose shadow flag is set while the
key is no longer held down. -/
def firstReleasedKey (vm : VirtualMachine) : Nat → Nat → Option Nat
  | _, 0 => none
  | k, rem + 1 =>
    if vm.keypad_shadow k && !vm.keypad k then some k
    else firstReleasedKey vm (k + 1) rem

/-- Opcode FX0A `store_keypress`: store the first pressed-then-released key index
in Vx and advance the PC; when no such key exists, mutate nothing (the PC
in particular), so the opcode is retried next cycle. -/
def store_keypress (vm : VirtualMachine) (x : Nat) : StepResult :=
  budgeted vm 200 (fun d =>
    match firstReleasedKey vm 0 16 with
    | some key =>
      .ran { vm with v := Function.update vm.v x key, pc := vm.pc + 2 } d
    | none => .ran vm d)

/-- Opcode FX15 `set_delay_timer`: delay timer = Vx. -/
def set_delay_timer (vm : VirtualMachine) (x : Nat) : StepResult :=
  budgeted vm 45 (fun d =>
    .ran { vm with delay_timer := vm.v x, pc := vm.pc + 2 } d)

/-- Opcode FX18 `set_sound_timer`: sound timer = Vx. -/
def set_sound_timer (vm : VirtualMachine) (x : Nat) : StepResult :=
  budgeted vm 45 (fun d =>
    .ran { vm with sound_timer := vm.v x, pc := vm.pc + 2 } d)

/-- Opcode FX1E `add_vx_to_i`: I = I + Vx wrapping as `u16`. -/
def add_vx_to_i (vm : VirtualMachine) (x : Nat) : StepResult :=
  budgeted vm 86 (fun d =>
    .ran { vm with i := (vm.i + vm.v x) % 65536, pc := vm.pc + 2 } d)

/-- Opcode FX29 `set_i_to_font_sprite_location`: I = font address of Vx&0xF. -/
def set_i_to_font_sprite_location (vm : VirtualMachine) (x : Nat) : StepResult :=
  budgeted vm 91 (fun d =>
    .ran { vm with i := vm.font_locations (Nat.land (vm.v x) 0x0f),
                   pc := vm.pc + 2 } d)

/-- Opcode FX33 `bcd_vx`: store the BCD digits of Vx at memory I, I+1, I+2
(out-of-bounds memory writes panic). -/
def bcd_vx (vm : VirtualMachine) (x : Nat) : StepResult :=
  budgeted vm 927 (fun d =>
    if vm.i + 2 < 4096 then
      let m1 := Function.update vm.mem vm.i (vm.v x / 100)
      let m2 := Function.update m1 (vm.i + 1) ((vm.v x / 10) % 10)
      let m3 := Function.update m2 (vm.i + 2) ((vm.v x % 100) % 10)
      .ran { vm with mem := m3, pc := vm.pc + 2 } d
    else .halt)

/-- The `while x >= register` loop of FX55: copy registers into memory
starting at offset `off`, bumping I per transfer under the memory quirk;
`fuel` counts the remaining iterations (`x + 1` at entry).  A write past
the 4096 memory cells is the Rust panic, modelled by `none`. -/
def dumpRegsLoop (v : Nat → Nat) (quirk : Bool) :
    Nat → Nat → Nat → Nat → (Nat → Nat) → Option ((Nat → Nat) × Nat)
  | 0, _, _, i, mem => some (mem, i)
  | fuel + 1, register, off, i, mem =>
    if off < 4096 then
      dumpRegsLoop v quirk fuel (register + 1) (off + 1)
        (if quirk then i + 1 else i) (Function.update mem off (v register))
    else none

/-- Opcode FX55 `dump_registers`: store V0..Vx into memory starting at I. -/
def dump_registers (vm : VirtualMachine) (x : Nat) : StepResult :=
  budgeted vm 605 (fun d =>
    match dumpRegsLoop vm.v vm.settings.mem_quirk (x + 1) 0 vm.i vm.i vm.mem with
    | some (mem', i') => .ran { vm with mem := mem', i := i', pc := vm.pc + 2 } d
    | none => .halt)

/-- The `while x >= register` loop of FX65: fill registers from memory
starting at offset `off`; a read past the 4096 cells panics (`none`). -/
def loadRegsLoop (mem : Nat → Nat) (quirk : Bool) :
    Nat → Nat → Nat → Nat → (Nat → Nat) → Option ((Nat → Nat) × Nat)
  | 0, _, _, i, v => some (v, i)
  | fuel + 1, register, off, i, v =>
    if off < 4096 then
      loadRegsLoop mem quirk fuel (register + 1) (off + 1)
        (if quirk then i + 1 else i) (Function.update v register (mem off))
    else none

/-- Opcode FX65 `load_registers`: fill V0..Vx from memory starting at I. -/
def load_registers (vm : VirtualMachine) (x : Nat) : StepResult :=
  budgeted vm 605 (fun d =>
    match loadRegsLoop vm.mem vm.settings.mem_quirk (x + 1) 0 vm.i vm.i vm.v with
    | some (v', i') => .ran { vm with v := v', i := i', pc := vm.pc + 2 } d
    | none => .halt)

/-- The inner `match opcode & 0x00ff` of the `0x0000` dispatch arm. -/
def dispatch_family_zero (vm : VirtualMachine) (opcode : Nat) : StepResult :=
  if opcode &&& 0x00ff = 0x0000 then call_routine vm (opNNN opcode)
  else if opcode &&& 0x00ff = 0x00e0 then clear_display vm
  else if opcode &&& 0x00ff = 0x00ee then subroutine_return vm
  else invalid_operation

/-- The inner `match opcode & 0xf00f` of the `0x8000` dispatch arm; note
the catch-all arm routes every remaining low nibble to `clone` (8XY0). -/
def dispatch_family_eight (vm : VirtualMachine) (opcode : Nat) : StepResult :=
  if opcode &&& 0xf00f = 0x8001 then or vm (opX opcode) (opY opcode)
  else if opcode &&& 0xf00f = 0x8002 then and vm (opX opcode) (opY opcode)
  else if opcode &&& 0xf00f = 0x8003 then xor vm (opX opcode) (opY opcode)
  else if opcode &&& 0xf00f = 0x8004 then add vm (opX opcode) (opY opcode)
  else if opcode &&& 0xf00f = 0x8005 then
    subtract_vy_from_vx vm (opX opcode) (opY opcode)
  else if opcode &&& 0xf00f = 0x8006 then
    shift_right vm (opX opcode) (opY opcode)
  else if opcode &&& 0xf00f = 0x8007 then
    subtract_vx_from_vy vm (opX opcode) (opY opcode)
  else if opcode &&& 0xf00f = 0x800e then
    shift_left vm (opX opcode) (opY opcode)
  else clone vm (opX opcode) (opY opcode)

/-- The inner `match opcode & 0xf0ff` of the `0xe000` dispatch arm. -/
def dispatch_family_e (vm : VirtualMachine) (opcode : Nat) : StepResult :=
  if opcode &&& 0xf0ff = 0xe09e then skip_if_pressed vm (opX opcode)
  else if opcode &&& 0xf0ff = 0xe0a1 then skip_if_not_pressed vm (opX opcode)
  else invalid_operation

/-- The inner `match opcode & 0xf0ff` of the `0xf000` dispatch arm. -/
def dispatch_family_f (vm : VirtualMachine) (opcode : Nat) : StepResult :=
  if opcode &&& 0xf0ff = 0xf007 then clone_dt_into_vx vm (opX opcode)
  else if opcode &&& 0xf0ff = 0xf00a then store_keypress vm (opX opcode)
  else if opcode &&& 0xf0ff = 0xf015 then set_delay_timer vm (opX opcode)
  else if opcode &&& 0xf0ff = 0xf018 then set_sound_timer vm (opX opcode)
  else if opcode &&& 0xf0ff = 0xf01e then add_vx_to_i vm (opX opcode)
  else if opcode &&& 0xf0ff = 0xf029 then
    set_i_to_font_sprite_location vm (opX opcode)
  else if opcode &&& 0xf0ff = 0xf033 then bcd_vx vm (opX opcode)
  else if opcode &&& 0xf0ff = 0xf055 then dump_registers vm (opX opcode)
  else if opcode &&& 0xf0ff = 0xf065 then load_registers vm (opX opcode)
  else invalid_operation

/-- The `decode_opcode_and_execute_operation` dispatcher of
`src/chip8.rs` (the Rust `match` arms tested in order, written as an
if-chain over the same masks; the nested matches of the 0/8/E/F families
are the `dispatch_family_*` functions above).  `rnd` is the external
random byte consumed by the CXNN handler. -/
def decode_opcode_and_execute_operation
    (vm : VirtualMachine) (opcode rnd : Nat) : StepResult :=
  if opcode &&& 0xf000 = 0x0000 then dispatch_family_zero vm opcode
  else if opcode &&& 0xf000 = 0x1000 then jump_to_nnn vm (opNNN opcode)
  else if opcode &&& 0xf000 = 0x2000 then call_subroutine vm (opNNN opcode)
  else if opcode &&& 0xf000 = 0x3000 then
    skip_if_eq_nn vm (opX opcode) (opNN opcode)
  else if opcode &&& 0xf000 = 0x4000 then
    skip_if_neq_nn vm (opX opcode) (opNN opcode)
  else if opcode &&& 0xf000 = 0x5000 then skip_if_eq vm (opX opcode) (opY opcode)
  else if opcode &&& 0xf000 = 0x6000 then
    set_vx_to_nn vm (opX opcode) (opNN opcode)
  else if opcode &&& 0xf000 = 0x7000 then
    add_nn_to_vx vm (opX opcode) (opNN opcode)
  else if opcode &&& 0xf000 = 0x8000 then dispatch_family_eight vm opcode
  else if opcode &&& 0xf000 = 0x9000 then skip_if_neq vm (opX opcode) (opY opcode)
  else if opcode &&& 0xf000 = 0xa000 then set_i_to_nnn vm (opNNN opcode)
  else if opcode &&& 0xf000 = 0xb000 then jump_to_v0_plus_nnn vm (opNNN opcode)
  else if opcode &&& 0xf000 = 0xc000 then
    random_and_nn vm (opX opcode) (opNN opcode) rnd
  else if opcode &&& 0xf000 = 0xd000 then
    draw_sprite vm (opX opcode) (opY opcode) (opN opcode)
  else if opcode &&& 0xf000 = 0xe000 then dispatch_family_e vm opcode
  else if opcode &&& 0xf000 = 0xf000 then dispatch_family_f vm opcode
  else invalid_operation

/-- The `reset` method: clears the frame buffer, stack, V registers, I,
both keypad
arrays and both timers, and sets PC to 0x200; memory and the settings are
left untouched. -/
def reset (vm : VirtualMachine) : VirtualMachine :=
  { vm with
    fb := fun _ => false
    stack := []
    v := fun _ => 0
    i := 0
    keypad := fun _ => false
    keypad_shadow := fun _ => false
    delay_timer := 0
    sound_timer := 0
    pc := 0x200 }

/-- The per-opcode simulated cost in microseconds before speed scaling:
the base constant at the top of the handler each opcode dispatches to,
`none` for opcodes routed to `invalid_operation`.  Follows the dispatch
of `decode_opcode_and_execute_operation` mask for mask. -/
def familyZeroBaseCost (opcode : Nat) : Option Nat :=
  if opcode &&& 0x00ff = 0x0000 then some 100
  else if opcode &&& 0x00ff = 0x00e0 then some 109
  else if opcode &&& 0x00ff = 0x00ee then some 105
  else none

def familyEightBaseCost (opcode : Nat) : Option Nat :=
  if opcode &&& 0xf00f = 0x8001 then some 200
  else if opcode &&& 0xf00f = 0x8002 then some 200
  else if opcode &&& 0xf00f = 0x8003 then some 200
  else if opcode &&& 0xf00f = 0x8004 then some 45
  else if opcode &&& 0xf00f = 0x8005 then some 200
  else if opcode &&& 0xf00f = 0x8006 then some 200
  else if opcode &&& 0xf00f = 0x8007 then some 200
  else if opcode &&& 0xf00f = 0x800e then some 200
  else some 45

def familyEBaseCost (opcode : Nat) : Option Nat :=
  if opcode &&& 0xf0ff = 0xe09e then some 73
  else if opcode &&& 0xf0ff = 0xe0a1 then some 73
  else none

def familyFBaseCost (opcode : Nat) : Option Nat :=
  if opcode &&& 0xf0ff = 0xf007 then some 27
  else if opcode &&& 0xf0ff = 0xf00a then some 200
  else if opcode &&& 0xf0ff = 0xf015 then some 45
  else if opcode &&& 0xf0ff = 0xf018 then some 45
  else if opcode &&& 0xf0ff = 0xf01e then some 86
  else if opcode &&& 0xf0ff = 0xf029 then some 91
  else if opcode &&& 0xf0ff = 0xf033 then some 927
  else if opcode &&& 0xf0ff = 0xf055 then some 605
  else if opcode &&& 0xf0ff = 0xf065 then some 605
  else none

def opcodeBaseCost (opcode : Nat) : Option Nat :=
  if opcode &&& 0xf000 = 0x0000 then familyZeroBaseCost opcode
  else if opcode &&& 0xf000 = 0x1000 then some 105
  else if opcode &&& 0xf000 = 0x2000 then some 105
  else if opcode &&& 0xf000 = 0x3000 then some 61
  else if opcode &&& 0xf000 = 0x4000 then some 61
  else if opcode &&& 0xf000 = 0x5000 then some 61
  else if opcode &&& 0xf000 = 0x6000 then some 27
  else if opcode &&& 0xf000 = 0x7000 then some 45
  else if opcode &&& 0xf000 = 0x8000 then familyEightBaseCost opcode
  else if opcode &&& 0xf000 = 0x9000 then some 61
  else if opcode &&& 0xf000 = 0xa000 then some 55
  else if opcode &&& 0xf000 = 0xb000 then some 105
  else if opcode &&& 0xf000 = 0xc000 then some 164
  else if opcode &&& 0xf000 = 0xd000 then some 10734
  else if opcode &&& 0xf000 = 0xe000 then familyEBaseCost opcode
  else if opcode &&& 0xf000 = 0xf000 then familyFBaseCost opcode
  else none

/-- Per-opcode scaled cost in nanoseconds, `none` for unknown opcodes. -/
def opcodeCostNs (s : Chip8Settings) (opcode : Nat) : Option Nat :=
  (opcodeBaseCost opcode).map (fun b => opDurNs s b)

/-- The machine carried by a `ran` outcome. -/
def ranVM : StepResult → Option VirtualMachine
  | .ran vm _ => some vm
  | _ => none

/-- Whether an outcome is the fatal `halt`. -/
def isHalt : StepResult → Bool
  | .halt => true
  | _ => false

/-- Whether an outcome is a successful `ran`. -/
def isRan : StepResult → Bool
  | .ran _ _ => true
  | _ => false

/-- The machine after a step, falling back to `fallback` on `halt`. -/
def vmAfter (r : StepResult) (fallback : VirtualMachine) : VirtualMachine :=
  (ranVM r).getD fallback

/-- The default quirk configuration of `settings.toml` except that every
quirk is off and the speed multiplier is 1. -/
def sampleSettings : Chip8Settings :=
  { shift_quirk := false
    or_and_xor_quirk := false
    mem_quirk := false
    sprite_wrapping_quirk := false
    jump_offset_quirk := false
    execution_speed_multiple := 1
    font_memory_starting_location := 0x50 }

/-- A freshly constructed machine (all-zero state, PC at 0x200). -/
def sampleVM : VirtualMachine :=
  { mem := fun _ => 0
    v := fun _ => 0
    i := 0
    stack := []
    pc := 0x200
    delay_timer := 0
    sound_timer := 0
    keypad := fun _ => false
    keypad_shadow := fun _ => false
    fb := fun _ => false
    draw_flag := false
    font_locations := fun _ => 0x50
    frame_time := 0
    settings := sampleSettings }

/-- Machine whose only nonzero register is VF = 1 (8XY4 aliasing input). -/
def addAliasVM : VirtualMachine :=
  { sampleVM with v := fun k => if k == 15 then 1 else 0 }

/-- Machine with V3 = 200, V4 = 100 (8XY4 witness input). -/
def addWitnessVM : VirtualMachine :=
  { sampleVM with v := fun k => if k == 3 then 200 else if k == 4 then 100 else 0 }

/-- Machine with VF = 5, V0 = 3 (8XY5 aliasing input). -/
def subAliasVM : VirtualMachine :=
  { sampleVM with v := fun k => if k == 15 then 5 else if k == 0 then 3 else 0 }

/-- Machine with V3 = 7, V4 = 9 (8XY5/8XY7 witness input). -/
def subWitnessVM : VirtualMachine :=
  { sampleVM with v := fun k => if k == 3 then 7 else if k == 4 then 9 else 0 }

/-- Machine with V0 = 1 and the logic quirk disabled (8XY1 aliasing). -/
def orAliasVM : VirtualMachine :=
  { sampleVM with v := fun k => if k == 0 then 1 else 0 }

/-- Machine with the logic quirk enabled and VF = 7 (8XY1 witness). -/
def orWitnessVM : VirtualMachine :=
  { sampleVM with
    v := fun k => if k == 15 then 7 else if k == 0 then 1 else 0
    settings := { sampleSettings with or_and_xor_quirk := true } }

/-- Machine where key 3 was pressed and then released (FX0A witness). -/
def keyWitnessVM : VirtualMachine :=
  { sampleVM with keypad_shadow := fun k => k == 3 }

/-- The inner pixel loop starting at bit `cp` with `rem` iterations left
writes (that is, XOR-flips) frame-buffer index `j`: some non-clipped bit
position carries a set sprite bit and maps to `j`. -/
def rowHits (x yRow spriteRow cp rem j : Nat) : Prop :=
  ∃ k, k < rem ∧ x + (cp + k) ≤ 63 ∧ j = yRow * 64 + (x + (cp + k)) ∧
    (spriteRow >>> (cp + k)) % 2 = 1

/-- The row loop starting at row `cr` with `rem` rows left XOR-flips
frame-buffer index `j`. -/
def spriteHits (mem : Nat → Nat) (i x y cr rem j : Nat) : Prop :=
  ∃ r, r < rem ∧ y + (cr + r) ≤ 31 ∧
    rowHits x (y + (cr + r)) (reverseBits8 (mem (i + (cr + r)))) 0 8 j

/-- The inner pixel loop turns some pixel off: a non-clipped set sprite
bit lands on a frame-buffer cell that is on in `fb`. -/
def rowCollides (x yRow spriteRow cp rem : Nat) (fb : Nat → Bool) : Prop :=
  ∃ k, k < rem ∧ x + (cp + k) ≤ 63 ∧ (spriteRow >>> (cp + k)) % 2 = 1 ∧
    fb (yRow * 64 + (x + (cp + k))) = true

/-- The row loop records a collision against the buffer `fb`. -/
def spriteCollides (mem : Nat → Nat) (i x y cr rem : Nat)
    (fb : Nat → Bool) : Prop :=
  ∃ r, r < rem ∧ y + (cr + r) ≤ 31 ∧
    rowCollides x (y + (cr + r)) (reverseBits8 (mem (i + (cr + r)))) 0 8 fb

instance (x yRow spriteRow cp rem j : Nat) :
    Decidable (rowHits x yRow spriteRow cp rem j) := by
  unfold rowHits
  infer_instance

instance (mem : Nat → Nat) (i x y cr rem j : Nat) :
    Decidable (spriteHits mem i x y cr rem j) := by
  unfold spriteHits
  infer_instance

instance (x yRow spriteRow cp rem : Nat) (fb : Nat → Bool) :
    Decidable (rowCollides x yRow spriteRow cp rem fb) := by
  unfold rowCollides
  infer_instance

instance (mem : Nat → Nat) (i x y cr rem : Nat) (fb : Nat → Bool) :
    Decidable (spriteCollides mem i x y cr rem fb) := by
  unfold spriteCollides
  infer_instance

/-- Machine with the single sprite byte 0x80 at address 0 and an empty
frame buffer (DXYN witness input; V0 = V1 = 0, so the sprite lands at the
top-left pixel). -/
def drawWitnessVM : VirtualMachine :=
  { sampleVM with mem := fun a => if a == 0 then 0x80 else 0 }

/-- Machine with the single sprite byte 0x80 at address 0 and the
top-left pixel already on (DXYN double-draw counterexample input). -/
def drawCexVM : VirtualMachine :=
  { sampleVM with
    mem := fun a => if a == 0 then 0x80 else 0
    fb := fun j => j == 0 }

/-- The machine after drawing the `drawWitnessVM` sprite once. -/
def drawW1 : VirtualMachine :=
  vmAfter (draw_sprite drawWitnessVM 0 1 1) drawWitnessVM

/-- The machine after drawing the `drawWitnessVM` sprite twice. -/
def drawW2 : VirtualMachine :=
  vmAfter (draw_sprite drawW1 0 1 1) drawWitnessVM

/-- Modelled from the spec: the opcode patterns of the spec's §4.2
operation table (0nnn, 00E0, 00EE, 1nnn, 2nnn, 3xnn, 4xnn, 5xy0, 6xnn,
7xnn, 8xy0-8xy7, 8xyE, 9xy0, Annn, Bnnn, Cxnn, Dxyn, Ex9E, ExA1, Fx07,
Fx0A, Fx15, Fx18, Fx1E, Fx29, Fx33, Fx55, Fx65), used to compare the
spec's "unmatched pattern is fatal" sentence against the code's dispatch. -/
def specListedOpcode (op : Nat) : Bool :=
  if op &&& 0xf000 = 0x0000 then true
  else if op &&& 0xf000 = 0x1000 then true
  else if op &&& 0xf000 = 0x2000 then true
  else if op &&& 0xf000 = 0x3000 then true
  else if op &&& 0xf000 = 0x4000 then true
  else if op &&& 0xf000 = 0x5000 then decide (op &&& 0x000f = 0x0000)
  else if op &&& 0xf000 = 0x6000 then true
  else if op &&& 0xf000 = 0x7000 then true
  else if op &&& 0xf000 = 0x8000 then
    decide (op &&& 0xf00f = 0x8000) || decide (op &&& 0xf00f = 0x8001) ||
    decide (op &&& 0xf00f = 0x8002) || decide (op &&& 0xf00f = 0x8003) ||
    decide (op &&& 0xf00f = 0x8004) || decide (op &&& 0xf00f = 0x8005) ||
    decide (op &&& 0xf00f = 0x8006) || decide (op &&& 0xf00f = 0x8007) ||
    decide (op &&& 0xf00f = 0x800e)
  else if op &&& 0xf000 = 0x9000 then decide (op &&& 0x000f = 0x0000)
  else if op &&& 0xf000 = 0xa000 then true
  else if op &&& 0xf000 = 0xb000 then true
  else if op &&& 0xf000 = 0xc000 then true
  else if op &&& 0xf000 = 0xd000 then true
  else if op &&& 0xf000 = 0xe000 then
    decide (op &&& 0xf0ff = 0xe09e) || decide (op &&& 0xf0ff = 0xe0a1)
  else if op &&& 0xf000 = 0xf000 then
    decide (op &&& 0xf0ff = 0xf007) || decide (op &&& 0xf0ff = 0xf00a) ||
    decide (op &&& 0xf0ff = 0xf015) || decide (op &&& 0xf0ff = 0xf018) ||
    decide (op &&& 0xf0ff = 0xf01e) || decide (op &&& 0xf0ff = 0xf029) ||
    decide (op &&& 0xf0ff = 0xf033) || decide (op &&& 0xf0ff = 0xf055) ||
    decide (op &&& 0xf0ff = 0xf065)
  else false

/-! ## Deferral: the budget guard mutates nothing -/

theorem budgeted_deferred_iff (vm : VirtualMachine) (b : Nat)
    (f : Nat → StepResult) (hf : ∀ c w, f c ≠ .deferred w)
    (vm' : VirtualMachine) :
    budgeted vm b f = .deferred vm' ↔
      vm' = vm ∧ MAX_FRAME_TIME_NS < vm.frame_time + opDurNs vm.settings b := by
  simp only [budgeted]
  split
  · rename_i h
    constructor
    · intro he
      injection he with h1
      exact ⟨h1.symm, h⟩
    · rintro ⟨rfl, _⟩
      rfl
  · rename_i h
    constructor
    · intro he
      exact absurd he (hf _ _)
    · rintro ⟨_, hc⟩
      exact absurd hc h

theorem call_routine_deferred_iff (vm : VirtualMachine) (nnn : Nat)
    (vm' : VirtualMachine) :
    call_routine vm nnn = .deferred vm' ↔
      vm' = vm ∧ MAX_FRAME_TIME_NS < vm.frame_time + opDurNs vm.settings 100 := by
  unfold call_routine
  exact budgeted_deferred_iff _ _ _ (fun c w => by simp) _

theorem clear_display_deferred_iff (vm : VirtualMachine) (vm' : VirtualMachine) :
    clear_display vm = .deferred vm' ↔
      vm' = vm ∧ MAX_FRAME_TIME_NS < vm.frame_time + opDurNs vm.settings 109 := by
  unfold clear_display
  exact budgeted_deferred_iff _ _ _ (fun c w => by simp) _

theorem subroutine_return_deferred_iff (vm : VirtualMachine) (vm' : VirtualMachine) :
    subroutine_return vm = .deferred vm' ↔
      vm' = vm ∧ MAX_FRAME_TIME_NS < vm.frame_time + opDurNs vm.settings 105 := by
  unfold subroutine_return
  exact budgeted_deferred_iff _ _ _ (fun c w => by cases vm.stack <;> simp) _

theorem jump_to_nnn_deferred_iff (vm : VirtualMachine) (nnn : Nat)
    (vm' : VirtualMachine) :
    jump_to_nnn vm nnn = .deferred vm' ↔
      vm' = vm ∧ MAX_FRAME_TIME_NS < vm.frame_time + opDurNs vm.settings 105 := by
  unfold jump_to_nnn
  exact budgeted_deferred_iff _ _ _ (fun c w => by simp) _

theorem call_subroutine_deferred_iff (vm : VirtualMachine) (nnn : Nat)
    (vm' : VirtualMachine) :
    call_subroutine vm nnn = .deferred vm' ↔
      vm' = vm ∧ MAX_FRAME_TIME_NS < vm.frame_time + opDurNs vm.settings 105 := by
  unfold call_subroutine
  exact budgeted_deferred_iff _ _ _ (fun c w => by simp) _

theorem skip_if_eq_nn_deferred_iff (vm : VirtualMachine) (x nn : Nat)
    (vm' : VirtualMachine) :
    skip_if_eq_nn vm x nn = .deferred vm' ↔
      vm' = vm ∧ MAX_FRAME_TIME_NS < vm.frame_time + opDurNs vm.settings 61 := by
  unfold skip_if_eq_nn
  exact budgeted_deferred_iff _ _ _ (fun c w => by simp) _

theorem skip_if_neq_nn_deferred_iff (vm : VirtualMachine) (x nn : Nat)
    (vm' : VirtualMachine) :
    skip_if_neq_nn vm x nn = .deferred vm' ↔
      vm' = vm ∧ MAX_FRAME_TIME_NS < vm.frame_time + opDurNs vm.settings 61 := by
  unfold skip_if_neq_nn
  exact budgeted_deferred_iff _ _ _ (fun c w => by simp) _

theorem skip_if_eq_deferred_iff (vm : VirtualMachine) (x y : Nat)
    (vm' : VirtualMachine) :
    skip_if_eq vm x y = .deferred vm' ↔
      vm' = vm ∧ MAX_FRAME_TIME_NS < vm.frame_time + opDurNs vm.settings 61 := by
  unfold skip_if_eq
  exact budgeted_deferred_iff _ _ _ (fun c w => by simp) _

theorem set_vx_to_nn_deferred_iff (vm : VirtualMachine) (x nn : Nat)
    (vm' : VirtualMachine) :
    set_vx_to_nn vm x nn = .deferred vm' ↔
      vm' = vm ∧ MAX_FRAME_TIME_NS < vm.frame_time + opDurNs vm.settings 27 := by
  unfold set_vx_to_nn
  exact budgeted_deferred_iff _ _ _ (fun c w => by simp) _

theorem add_nn_to_vx_deferred_iff (vm : VirtualMachine) (x nn : Nat)
    (vm' : VirtualMachine) :
    add_nn_to_vx vm x nn = .deferred vm' ↔
      vm' = vm ∧ MAX_FRAME_TIME_NS < vm.frame_time + opDurNs vm.settings 45 := by
  unfold add_nn_to_vx
  exact budgeted_deferred_iff _ _ _ (fun c w => by simp) _

theorem clone_deferred_iff (vm : VirtualMachine) (x y : Nat)
    (vm' : VirtualMachine) :
    clone vm x y = .deferred vm' ↔
      vm' = vm ∧ MAX_FRAME_TIME_NS < vm.frame_time + opDurNs vm.settings 45 := by
  unfold clone
  exact budgeted_deferred_iff _ _ _ (fun c w => by simp) _

theorem or_deferred_iff (vm : VirtualMachine) (x y : Nat)
    (vm' : VirtualMachine) :
    or vm x y = .deferred vm' ↔
      vm' = vm ∧ MAX_FRAME_TIME_NS < vm.frame_time + opDurNs vm.settings 200 := by
  unfold or
  exact budgeted_deferred_iff _ _ _ (fun c w => by simp) _

theorem and_deferred_iff (vm : VirtualMachine) (x y : Nat)
    (vm' : VirtualMachine) :
    and vm x y = .deferred vm' ↔
      vm' = vm ∧ MAX_FRAME_TIME_NS < vm.frame_time + opDurNs vm.settings 200 := by
  unfold and
  exact budgeted_deferred_iff _ _ _ (fun c w => by simp) _

theorem xor_deferred_iff (vm : VirtualMachine) (x y : Nat)
    (vm' : VirtualMachine) :
    xor vm x y = .deferred vm' ↔
      vm' = vm ∧ MAX_FRAME_TIME_NS < vm.frame_time + opDurNs vm.settings 200 := by
  unfold xor
  exact budgeted_deferred_iff _ _ _ (fun c w => by simp) _

theorem add_deferred_iff (vm : VirtualMachine) (x y : Nat)
    (vm' : VirtualMachine) :
    add vm x y = .deferred vm' ↔
      vm' = vm ∧ MAX_FRAME_TIME_NS < vm.frame_time + opDurNs vm.settings 45 := by
  unfold add
  exact budgeted_deferred_iff _ _ _ (fun c w => by simp) _

theorem subtract_vy_from_vx_deferred_iff (vm : VirtualMachine) (x y : Nat)
    (vm' : VirtualMachine) :
    subtract_vy_from_vx vm x y = .deferred vm' ↔
      vm' = vm ∧ MAX_FRAME_TIME_NS < vm.frame_time + opDurNs vm.settings 200 := by
  unfold subtract_vy_from_vx
  exact budgeted_deferred_iff _ _ _ (fun c w => by simp) _

theorem shift_right_deferred_iff (vm : VirtualMachine) (x y : Nat)
    (vm' : VirtualMachine) :
    shift_right vm x y = .deferred vm' ↔
      vm' = vm ∧ MAX_FRAME_TIME_NS < vm.frame_time + opDurNs vm.settings 200 := by
  unfold shift_right
  exact budgeted_deferred_iff _ _ _ (fun c w => by simp) _

theorem subtract_vx_from_vy_deferred_iff (vm : VirtualMachine) (x y : Nat)
    (vm' : VirtualMachine) :
    subtract_vx_from_vy vm x y = .deferred vm' ↔
      vm' = vm ∧ MAX_FRAME_TIME_NS < vm.frame_time + opDurNs vm.settings 200 := by
  unfold subtract_vx_from_vy
  exact budgeted_deferred_iff _ _ _ (fun c w => by simp) _

theorem shift_left_deferred_iff (vm : VirtualMachine) (x y : Nat)
    (vm' : VirtualMachine) :
    shift_left vm x y = .deferred vm' ↔
      vm' = vm ∧ MAX_FRAME_TIME_NS < vm.frame_time + opDurNs vm.settings 200 := by
  unfold shift_left
  exact budgeted_deferred_iff _ _ _ (fun c w => by simp) _

theorem skip_if_neq_deferred_iff (vm : VirtualMachine) (x y : Nat)
    (vm' : VirtualMachine) :
    skip_if_neq vm x y = .deferred vm' ↔
      vm' = vm ∧ MAX_FRAME_TIME_NS < vm.frame_time + opDurNs vm.settings 61 := by
  unfold skip_if_neq
  exact budgeted_deferred_iff _ _ _ (fun c w => by simp) _

theorem set_i_to_nnn_deferred_iff (vm : VirtualMachine) (nnn : Nat)
    (vm' : VirtualMachine) :
    set_i_to_nnn vm nnn = .deferred vm' ↔
      vm' = vm ∧ MAX_FRAME_TIME_NS < vm.frame_time + opDurNs vm.settings 55 := by
  unfold set_i_to_nnn
  exact budgeted_deferred_iff _ _ _ (fun c w => by simp) _

theorem jump_to_v0_plus_nnn_deferred_iff (vm : VirtualMachine) (nnn : Nat)
    (vm' : VirtualMachine) :
    jump_to_v0_plus_nnn vm nnn = .deferred vm' ↔
      vm' = vm ∧ MAX_FRAME_TIME_NS < vm.frame_time + opDurNs vm.settings 105 := by
  unfold jump_to_v0_plus_nnn
  exact budgeted_deferred_iff _ _ _
    (fun c w => by cases vm.settings.jump_offset_quirk <;> simp) _

theorem random_and_nn_deferred_iff (vm : VirtualMachine) (x nn rnd : Nat)
    (vm' : VirtualMachine) :
    random_and_nn vm x nn rnd = .deferred vm' ↔
      vm' = vm ∧ MAX_FRAME_TIME_NS < vm.frame_time + opDurNs vm.settings 164 := by
  unfold random_and_nn
  exact budgeted_deferred_iff _ _ _ (fun c w => by simp) _

theorem draw_sprite_deferred_iff (vm : VirtualMachine) (x y n : Nat)
    (vm' : VirtualMachine) :
    draw_sprite vm x y n = .deferred vm' ↔
      vm' = vm ∧ MAX_FRAME_TIME_NS < vm.frame_time + opDurNs vm.settings 10734 := by
  unfold draw_sprite
  refine budgeted_deferred_iff _ _ _ (fun c w => ?_) _
  rcases (drawRows vm.mem vm.i (drawStartX vm x) (drawStartY vm y)
      0 n vm.fb false).1 with _ | ⟨fb', col⟩ <;> simp

theorem skip_if_pressed_deferred_iff (vm : VirtualMachine) (x : Nat)
    (vm' : VirtualMachine) :
    skip_if_pressed vm x = .deferred vm' ↔
      vm' = vm ∧ MAX_FRAME_TIME_NS < vm.frame_time + opDurNs vm.settings 73 := by
  unfold skip_if_pressed
  exact budgeted_deferred_iff _ _ _ (fun c w => by simp) _

theorem skip_if_not_pressed_deferred_iff (vm : VirtualMachine) (x : Nat)
    (vm' : VirtualMachine) :
    skip_if_not_pressed vm x = .deferred vm' ↔
      vm' = vm ∧ MAX_FRAME_TIME_NS < vm.frame_time + opDurNs vm.settings 73 := by
  unfold skip_if_not_pressed
  exact budgeted_deferred_iff _ _ _ (fun c w => by simp) _

theorem clone_dt_into_vx_deferred_iff (vm : VirtualMachine) (x : Nat)
    (vm' : VirtualMachine) :
    clone_dt_into_vx vm x = .deferred vm' ↔
      vm' = vm ∧ MAX_FRAME_TIME_NS < vm.frame_time + opDurNs vm.settings 27 := by
  unfold clone_dt_into_vx
  exact budgeted_deferred_iff _ _ _ (fun c w => by simp) _

theorem store_keypress_deferred_iff (vm : VirtualMachine) (x : Nat)
    (vm' : VirtualMachine) :
    store_keypress vm x = .deferred vm' ↔
      vm' = vm ∧ MAX_FRAME_TIME_NS < vm.frame_time + opDurNs vm.settings 200 := by
  unfold store_keypress
  refine budgeted_deferred_iff _ _ _ (fun c w => ?_) _
  rcases firstReleasedKey vm 0 16 with _ | k <;> simp

theorem set_delay_timer_deferred_iff (vm : VirtualMachine) (x : Nat)
    (vm' : VirtualMachine) :
    set_delay_timer vm x = .deferred vm' ↔
      vm' = vm ∧ MAX_FRAME_TIME_NS < vm.frame_time + opDurNs vm.settings 45 := by
  unfold set_delay_timer
  exact budgeted_deferred_iff _ _ _ (fun c w => by simp) _

theorem set_sound_timer_deferred_iff (vm : VirtualMachine) (x : Nat)
    (vm' : VirtualMachine) :
    set_sound_timer vm x = .deferred vm' ↔
      vm' = vm ∧ MAX_FRAME_TIME_NS < vm.frame_time + opDurNs vm.settings 45 := by
  unfold set_sound_timer
  exact budgeted_deferred_iff _ _ _ (fun c w => by simp) _

theorem add_vx_to_i_deferred_iff (vm : VirtualMachine) (x : Nat)
    (vm' : VirtualMachine) :
    add_vx_to_i vm x = .deferred vm' ↔
      vm' = vm ∧ MAX_FRAME_TIME_NS < vm.frame_time + opDurNs vm.settings 86 := by
  unfold add_vx_to_i
  exact budgeted_deferred_iff _ _ _ (fun c w => by simp) _

theorem set_i_to_font_sprite_location_deferred_iff (vm : VirtualMachine)
    (x : Nat) (vm' : VirtualMachine) :
    set_i_to_font_sprite_location vm x = .deferred vm' ↔
      vm' = vm ∧ MAX_FRAME_TIME_NS < vm.frame_time + opDurNs vm.settings 91 := by
  unfold set_i_to_font_sprite_location
  exact budgeted_deferred_iff _ _ _ (fun c w => by simp) _

theorem bcd_vx_deferred_iff (vm : VirtualMachine) (x : Nat)
    (vm' : VirtualMachine) :
    bcd_vx vm x = .deferred vm' ↔
      vm' = vm ∧ MAX_FRAME_TIME_NS < vm.frame_time + opDurNs vm.settings 927 := by
  unfold bcd_vx
  refine budgeted_deferred_iff _ _ _ (fun c w => ?_) _
  by_cases h : vm.i + 2 < 4096 <;> simp [h]

theorem dump_registers_deferred_iff (vm : VirtualMachine) (x : Nat)
    (vm' : VirtualMachine) :
    dump_registers vm x = .deferred vm' ↔
      vm' = vm ∧ MAX_FRAME_TIME_NS < vm.frame_time + opDurNs vm.settings 605 := by
  unfold dump_registers
  refine budgeted_deferred_iff _ _ _ (fun c w => ?_) _
  rcases dumpRegsLoop vm.v vm.settings.mem_quirk (x + 1) 0 vm.i vm.i vm.mem
    with _ | ⟨mem', i'⟩ <;> simp

theorem load_registers_deferred_iff (vm : VirtualMachine) (x : Nat)
    (vm' : VirtualMachine) :
    load_registers vm x = .deferred vm' ↔
      vm' = vm ∧ MAX_FRAME_TIME_NS < vm.frame_time + opDurNs vm.settings 605 := by
  unfold load_registers
  refine budgeted_deferred_iff _ _ _ (fun c w => ?_) _
  rcases loadRegsLoop vm.mem vm.settings.mem_quirk (x + 1) 0 vm.i vm.i vm.v
    with _ | ⟨v', i'⟩ <;> simp

theorem dispatch_family_zero_deferred_iff (vm : VirtualMachine)
    (opcode : Nat) (vm' : VirtualMachine) :
    dispatch_family_zero vm opcode = .deferred vm' ↔
      vm' = vm ∧ ∃ b, familyZeroBaseCost opcode = some b ∧
        MAX_FRAME_TIME_NS < vm.frame_time + opDurNs vm.settings b := by
  unfold dispatch_family_zero familyZeroBaseCost
  split_ifs <;>
    simp [invalid_operation, call_routine_deferred_iff,
      clear_display_deferred_iff, subroutine_return_deferred_iff]

set_option maxHeartbeats 1600000 in
theorem dispatch_family_eight_deferred_iff (vm : VirtualMachine)
    (opcode : Nat) (vm' : VirtualMachine) :
    dispatch_family_eight vm opcode = .deferred vm' ↔
      vm' = vm ∧ ∃ b, familyEightBaseCost opcode = some b ∧
        MAX_FRAME_TIME_NS < vm.frame_time + opDurNs vm.settings b := by
  unfold dispatch_family_eight familyEightBaseCost
  split_ifs <;>
    simp [or_deferred_iff, and_deferred_iff, xor_deferred_iff,
      add_deferred_iff, subtract_vy_from_vx_deferred_iff,
      shift_right_deferred_iff, subtract_vx_from_vy_deferred_iff,
      shift_left_deferred_iff, clone_deferred_iff]

theorem dispatch_family_e_deferred_iff (vm : VirtualMachine)
    (opcode : Nat) (vm' : VirtualMachine) :
    dispatch_family_e vm opcode = .deferred vm' ↔
      vm' = vm ∧ ∃ b, familyEBaseCost opcode = some b ∧
        MAX_FRAME_TIME_NS < vm.frame_time + opDurNs vm.settings b := by
  unfold dispatch_family_e familyEBaseCost
  split_ifs <;>
    simp [invalid_operation, skip_if_pressed_deferred_iff,
      skip_if_not_pressed_deferred_iff]

set_option maxHeartbeats 1600000 in
theorem dispatch_family_f_deferred_iff (vm : VirtualMachine)
    (opcode : Nat) (vm' : VirtualMachine) :
    dispatch_family_f vm opcode = .deferred vm' ↔
      vm' = vm ∧ ∃ b, familyFBaseCost opcode = some b ∧
        MAX_FRAME_TIME_NS < vm.frame_time + opDurNs vm.settings b := by
  unfold dispatch_family_f familyFBaseCost
  split_ifs <;>
    simp [invalid_operation, clone_dt_into_vx_deferred_iff,
      store_keypress_deferred_iff, set_delay_timer_deferred_iff,
      set_sound_timer_deferred_iff, add_vx_to_i_deferred_iff,
      set_i_to_font_sprite_location_deferred_iff, bcd_vx_deferred_iff,
      dump_registers_deferred_iff, load_registers_deferred_iff]

set_option maxHeartbeats 1600000

/-- C1.  Dispatch reports "deferred" exactly when the dispatched
operation's scaled cost added to the frame-time accumulator would exceed
the 16.667 ms frame budget, and in that case the machine state (memory,
registers, I, stack, timers, frame buffer, PC, everything) is returned
unchanged, so the same instruction is fetched again on the next cycle. -/
theorem deferred_iff_budget_overrun_and_no_mutation
    (vm : VirtualMachine) (opcode rnd : Nat) (vm' : VirtualMachine) :
    decode_opcode_and_execute_operation vm opcode rnd = .deferred vm' ↔
      vm' = vm ∧ ∃ c, opcodeCostNs vm.settings opcode = some c ∧
        MAX_FRAME_TIME_NS < vm.frame_time + c := by
  unfold decode_opcode_and_execute_operation opcodeCostNs opcodeBaseCost
  by_cases h0 : opcode &&& 0xf000 = 0x0000
  · simp [h0, dispatch_family_zero_deferred_iff]
  by_cases h1 : opcode &&& 0xf000 = 0x1000
  · simp [h0, h1, jump_to_nnn_deferred_iff]
  by_cases h2 : opcode &&& 0xf000 = 0x2000
  · simp [h0, h1, h2, call_subroutine_deferred_iff]
  by_cases h3 : opcode &&& 0xf000 = 0x3000
  · simp [h0, h1, h2, h3, skip_if_eq_nn_deferred_iff]
  by_cases h4 : opcode &&& 0xf000 = 0x4000
  · simp [h0, h1, h2, h3, h4, skip_if_neq_nn_deferred_iff]
  by_cases h5 : opcode &&& 0xf000 = 0x5000
  · simp [h0, h1, h2, h3, h4, h5, skip_if_eq_deferred_iff]
  by_cases h6 : opcode &&& 0xf000 = 0x6000
  · simp [h0, h1, h2, h3, h4, h5, h6, set_vx_to_nn_deferred_iff]
  by_cases h7 : opcode &&& 0xf000 = 0x7000
  · simp [h0, h1, h2, h3, h4, h5, h6, h7, add_nn_to_vx_deferred_iff]
  by_cases h8 : opcode &&& 0xf000 = 0x8000
  · simp [h0, h1, h2, h3, h4, h5, h6, h7, h8,
      dispatch_family_eight_deferred_iff]
  by_cases h9 : opcode &&& 0xf000 = 0x9000
  · simp [h0, h1, h2, h3, h4, h5, h6, h7, h8, h9, skip_if_neq_deferred_iff]
  by_cases ha : opcode &&& 0xf000 = 0xa000
  · simp [h0, h1, h2, h3, h4, h5, h6, h7, h8, h9, ha,
      set_i_to_nnn_deferred_iff]
  by_cases hb : opcode &&& 0xf000 = 0xb000
  · simp [h0, h1, h2, h3, h4, h5, h6, h7, h8, h9, ha, hb,
      jump_to_v0_plus_nnn_deferred_iff]
  by_cases hc : opcode &&& 0xf000 = 0xc000
  · simp [h0, h1, h2, h3, h4, h5, h6, h7, h8, h9, ha, hb, hc,
      random_and_nn_deferred_iff]
  by_cases hd : opcode &&& 0xf000 = 0xd000
  · simp [h0, h1, h2, h3, h4, h5, h6, h7, h8, h9, ha, hb, hc, hd,
      draw_sprite_deferred_iff]
  by_cases he : opcode &&& 0xf000 = 0xe000
  · simp [h0, h1, h2, h3, h4, h5, h6, h7, h8, h9, ha, hb, hc, hd, he,
      dispatch_family_e_deferred_iff]
  by_cases hf : opcode &&& 0xf000 = 0xf000
  · simp [h0, h1, h2, h3, h4, h5, h6, h7, h8, h9, ha, hb, hc, hd, he, hf,
      dispatch_family_f_deferred_iff]
  simp [h0, h1, h2, h3, h4, h5, h6, h7, h8, h9, ha, hb, hc, hd, he, hf,
    invalid_operation]

/-! ## Reset -/

/-- C8.  `reset` leaves all memory cells and the quirk configuration
unchanged, clears the V registers, I, the stack, both timers, the frame
buffer and both keypad arrays, and sets PC to the entry address 0x200. -/
theorem reset_clears_state_preserves_memory (vm : VirtualMachine) :
    (reset vm).mem = vm.mem ∧ (reset vm).settings = vm.settings ∧
    (∀ k, (reset vm).v k = 0) ∧ (reset vm).i = 0 ∧ (reset vm).stack = [] ∧
    (reset vm).delay_timer = 0 ∧ (reset vm).sound_timer = 0 ∧
    (∀ j, (reset vm).fb j = false) ∧ (∀ k, (reset vm).keypad k = false) ∧
    (∀ k, (reset vm).keypad_shadow k = false) ∧ (reset vm).pc = 0x200 :=
  ⟨rfl, rfl, fun _ => rfl, rfl, rfl, rfl, rfl, fun _ => rfl, fun _ => rfl,
    fun _ => rfl, rfl⟩

/-! ## Arithmetic and logic flags -/

/-- C2 counterexample.  At x = y = 15 the claim fails: V15 holds 1, the
wrapped sum is (1+1) % 256 = 2, yet after 8FF4 the register Vx (= VF)
holds the carry flag 0, not the wrapped sum. -/
theorem add_aliasing_cex :
    isRan (add addAliasVM 15 15) = true ∧
    (vmAfter (add addAliasVM 15 15) addAliasVM).v 15 = 0 ∧
    (addAliasVM.v 15 + addAliasVM.v 15) % 256 = 2 := by
  decide

/-- C2 (amended).  For 8-bit register contents, 8XY4 (when it runs) sets
VF to 1 exactly when the unsigned sum exceeds 255 and to 0 otherwise, and
— provided x ≠ 15, so that Vx is not aliased with the flag register —
stores the wrapped sum in Vx; when x = 15 the flag write overwrites the
stored sum. -/
theorem add_wraps_and_sets_carry (vm : VirtualMachine) (x y : Nat)
    (vm' : VirtualMachine) (c : Nat)
    (_hx : vm.v x < 256) (_hy : vm.v y < 256)
    (hrun : add vm x y = .ran vm' c) :
    vm'.v 15 = (if 255 < vm.v x + vm.v y then 1 else 0) ∧
    (x ≠ 15 → vm'.v x = (vm.v x + vm.v y) % 256) := by
  simp only [add, budgeted] at hrun
  split at hrun
  · exact absurd hrun (by simp)
  · simp only [StepResult.ran.injEq] at hrun
    obtain ⟨hvm, _⟩ := hrun
    subst hvm
    constructor
    · simp [overflowingAdd8, Function.update_apply]
    · intro hx15
      have h15 : ¬ (x = 15) := hx15
      simp [overflowingAdd8, Function.update_apply, h15]

theorem add_wraps_and_sets_carry_witness :
    addWitnessVM.v 3 < 256 ∧ addWitnessVM.v 4 < 256 ∧
    add addWitnessVM 3 4 =
      .ran (vmAfter (add addWitnessVM 3 4) addWitnessVM)
        (opDurNs sampleSettings 45) ∧
    ((vmAfter (add addWitnessVM 3 4) addWitnessVM).v 15 =
        (if 255 < addWitnessVM.v 3 + addWitnessVM.v 4 then 1 else 0) ∧
      (3 ≠ 15 →
        (vmAfter (add addWitnessVM 3 4) addWitnessVM).v 3 =
          (addWitnessVM.v 3 + addWitnessVM.v 4) % 256)) :=
  ⟨by decide, by decide, rfl,
    add_wraps_and_sets_carry addWitnessVM 3 4 _ _ (by decide) (by decide) rfl⟩

/-- C3 counterexample.  At x = 15, y = 0 the claim fails for 8XY5: with
V15 = 5 and V0 = 3 the wrapped difference is 2 and no borrow occurs, yet
after 8F05 the register Vx (= VF) holds the no-borrow flag 1, not 2. -/
theorem subtract_aliasing_cex :
    isRan (subtract_vy_from_vx subAliasVM 15 0) = true ∧
    (vmAfter (subtract_vy_from_vx subAliasVM 15 0) subAliasVM).v 15 = 1 ∧
    (subAliasVM.v 15 + 256 - subAliasVM.v 0) % 256 = 2 := by
  decide

/-- C3 (amended).  For 8-bit register contents: 8XY5 (when it runs) sets
VF to 1 exactly when Vx ≥ Vy (no borrow) and to 0 otherwise, and 8XY7
sets VF to 1 exactly when Vy ≥ Vx; provided x ≠ 15 the wrapped difference
(Vx − Vy, resp. Vy − Vx, mod 256) is stored in Vx, while for x = 15 the
flag write overwrites it. -/
theorem subtract_flag_semantics (vm : VirtualMachine) (x y : Nat)
    (vm' vm'' : VirtualMachine) (c c' : Nat)
    (_hx : vm.v x < 256) (_hy : vm.v y < 256) :
    (subtract_vy_from_vx vm x y = .ran vm' c →
       vm'.v 15 = (if vm.v y ≤ vm.v x then 1 else 0) ∧
       (x ≠ 15 → vm'.v x = (vm.v x + 256 - vm.v y) % 256)) ∧
    (subtract_vx_from_vy vm x y = .ran vm'' c' →
       vm''.v 15 = (if vm.v x ≤ vm.v y then 1 else 0) ∧
       (x ≠ 15 → vm''.v x = (vm.v y + 256 - vm.v x) % 256)) := by
  constructor
  · intro hrun
    simp only [subtract_vy_from_vx, budgeted] at hrun
    split at hrun
    · exact absurd hrun (by simp)
    · simp only [StepResult.ran.injEq] at hrun
      obtain ⟨hvm, _⟩ := hrun
      subst hvm
      constructor
      · by_cases hlt : vm.v x < vm.v y
        · simp [overflowingSub8, Function.update_apply, hlt, Nat.not_le.mpr hlt]
        · simp [overflowingSub8, Function.update_apply, hlt,
            Nat.le_of_not_lt hlt]
      · intro hx15
        have h15 : ¬ (x = 15) := hx15
        simp [overflowingSub8, Function.update_apply, h15]
  · intro hrun
    simp only [subtract_vx_from_vy, budgeted] at hrun
    split at hrun
    · exact absurd hrun (by simp)
    · simp only [StepResult.ran.injEq] at hrun
      obtain ⟨hvm, _⟩ := hrun
      subst hvm
      constructor
      · by_cases hlt : vm.v y < vm.v x
        · simp [overflowingSub8, Function.update_apply, hlt, Nat.not_le.mpr hlt]
        · simp [overflowingSub8, Function.update_apply, hlt,
            Nat.le_of_not_lt hlt]
      · intro hx15
        have h15 : ¬ (x = 15) := hx15
        simp [overflowingSub8, Function.update_apply, h15]

theorem subtract_flag_semantics_witness :
    subWitnessVM.v 3 < 256 ∧ subWitnessVM.v 4 < 256 ∧
    ((subtract_vy_from_vx subWitnessVM 3 4 =
        .ran (vmAfter (subtract_vy_from_vx subWitnessVM 3 4) subWitnessVM)
          (opDurNs sampleSettings 200) →
       (vmAfter (subtract_vy_from_vx subWitnessVM 3 4) subWitnessVM).v 15 =
          (if subWitnessVM.v 4 ≤ subWitnessVM.v 3 then 1 else 0) ∧
       (3 ≠ 15 →
         (vmAfter (subtract_vy_from_vx subWitnessVM 3 4) subWitnessVM).v 3 =
           (subWitnessVM.v 3 + 256 - subWitnessVM.v 4) % 256)) ∧
     (subtract_vx_from_vy subWitnessVM 3 4 =
        .ran (vmAfter (subtract_vx_from_vy subWitnessVM 3 4) subWitnessVM)
          (opDurNs sampleSettings 200) →
       (vmAfter (subtract_vx_from_vy subWitnessVM 3 4) subWitnessVM).v 15 =
          (if subWitnessVM.v 3 ≤ subWitnessVM.v 4 then 1 else 0) ∧
       (3 ≠ 15 →
         (vmAfter (subtract_vx_from_vy subWitnessVM 3 4) subWitnessVM).v 3 =
           (subWitnessVM.v 4 + 256 - subWitnessVM.v 3) % 256))) :=
  ⟨by decide, by decide,
    subtract_flag_semantics subWitnessVM 3 4 _ _ _ _ (by decide) (by decide)⟩

/-- C5 counterexample.  With the logic quirk disabled and x = 15, y = 0,
V15 = 0, V0 = 1: after 8F01 the flag register holds 1 (the OR result was
written into Vx = VF), not its prior value 0. -/
theorem or_aliasing_cex :
    orAliasVM.settings.or_and_xor_quirk = false ∧
    isRan (or orAliasVM 15 0) = true ∧
    orAliasVM.v 15 = 0 ∧
    (vmAfter (or orAliasVM 15 0) orAliasVM).v 15 = 1 := by
  decide

/-- C5 (amended).  With the logic quirk enabled, 8XY1 (when it runs)
always leaves VF = 0 regardless of its prior value; with the quirk
disabled VF keeps its prior value provided x ≠ 15 (for x = 15 the OR
result itself lands in VF). -/
theorem or_quirk_flag_semantics (vm : VirtualMachine) (x y : Nat)
    (vm' : VirtualMachine) (c : Nat)
    (hrun : or vm x y = .ran vm' c) :
    (vm.settings.or_and_xor_quirk = true → vm'.v 15 = 0) ∧
    (vm.settings.or_and_xor_quirk = false → x ≠ 15 → vm'.v 15 = vm.v 15) := by
  simp only [or, budgeted] at hrun
  split at hrun
  · exact absurd hrun (by simp)
  · simp only [StepResult.ran.injEq] at hrun
    obtain ⟨hvm, _⟩ := hrun
    subst hvm
    constructor
    · intro hq
      simp [hq, Function.update_apply]
    · intro hq hx15
      have h15 : ¬ (15 = x) := fun h => hx15 h.symm
      simp [hq, Function.update_apply, h15]

theorem or_quirk_flag_semantics_witness :
    or orWitnessVM 3 0 =
      .ran (vmAfter (or orWitnessVM 3 0) orWitnessVM)
        (opDurNs orWitnessVM.settings 200) ∧
    ((orWitnessVM.settings.or_and_xor_quirk = true →
        (vmAfter (or orWitnessVM 3 0) orWitnessVM).v 15 = 0) ∧
     (orWitnessVM.settings.or_and_xor_quirk = false → 3 ≠ 15 →
        (vmAfter (or orWitnessVM 3 0) orWitnessVM).v 15 = orWitnessVM.v 15)) :=
  ⟨rfl, or_quirk_flag_semantics orWitnessVM 3 0 _ _ rfl⟩

/-! ## FX0A: wait for a pressed-then-released key -/

theorem firstReleasedKey_some_spec (vm : VirtualMachine) :
    ∀ rem k0 k, firstReleasedKey vm k0 rem = some k →
      k0 ≤ k ∧ k < k0 + rem ∧
      vm.keypad_shadow k = true ∧ vm.keypad k = false ∧
      ∀ j, k0 ≤ j → j < k →
        ¬(vm.keypad_shadow j = true ∧ vm.keypad j = false) := by
  intro rem
  induction rem with
  | zero =>
    intro k0 k h
    simp [firstReleasedKey] at h
  | succ n ih =>
    intro k0 k h
    unfold firstReleasedKey at h
    split at h
    · rename_i hcond
      injection h with hk
      subst hk
      simp only [Bool.and_eq_true, Bool.not_eq_true'] at hcond
      exact ⟨Nat.le_refl _, by omega, hcond.1, hcond.2,
        fun j hj1 hj2 => by omega⟩
    · rename_i hcond
      obtain ⟨h1, h2, h3, h4, h5⟩ := ih (k0 + 1) k h
      refine ⟨by omega, by omega, h3, h4, ?_⟩
      intro j hj1 hj2
      rcases Nat.eq_or_lt_of_le hj1 with heq | hlt
      · subst heq
        rintro ⟨hs, hp⟩
        exact hcond (by simp [hs, hp])
      · exact h5 j (by omega) hj2

theorem firstReleasedKey_none_spec (vm : VirtualMachine) :
    ∀ rem k0, firstReleasedKey vm k0 rem = none →
      ∀ j, k0 ≤ j → j < k0 + rem →
        ¬(vm.keypad_shadow j = true ∧ vm.keypad j = false) := by
  intro rem
  induction rem with
  | zero =>
    intro k0 h j hj1 hj2
    omega
  | succ n ih =>
    intro k0 h j hj1 hj2
    unfold firstReleasedKey at h
    split at h
    · exact absurd h (by simp)
    · rename_i hcond
      rcases Nat.eq_or_lt_of_le hj1 with heq | hlt
      · subst heq
        rintro ⟨hs, hp⟩
        exact hcond (by simp [hs, hp])
      · exact ih (k0 + 1) h j (by omega) (by omega)

/-- C9.  When FX0A runs (not deferred): if some key index has its shadow
flag set while the key is up, the smallest such index is stored in Vx and
PC advances by 2; otherwise nothing at all is mutated, so the same FX0A
opcode is re-attempted on the next cycle. -/
theorem store_keypress_spec (vm : VirtualMachine) (x : Nat)
    (vm' : VirtualMachine) (c : Nat)
    (hrun : store_keypress vm x = .ran vm' c) :
    ((∃ k, k < 16 ∧ vm.keypad_shadow k = true ∧ vm.keypad k = false) →
       ∃ k, k < 16 ∧ vm.keypad_shadow k = true ∧ vm.keypad k = false ∧
         (∀ j, j < k → ¬(vm.keypad_shadow j = true ∧ vm.keypad j = false)) ∧
         vm' = { vm with v := Function.update vm.v x k, pc := vm.pc + 2 }) ∧
    ((∀ k, k < 16 → ¬(vm.keypad_shadow k = true ∧ vm.keypad k = false)) →
       vm' = vm) := by
  simp only [store_keypress, budgeted] at hrun
  split at hrun
  · exact absurd hrun (by simp)
  · cases hfk : firstReleasedKey vm 0 16 with
    | some k =>
      rw [hfk] at hrun
      simp only [StepResult.ran.injEq] at hrun
      obtain ⟨hvm, _⟩ := hrun
      obtain ⟨_, hk16, hs, hp, hmin⟩ := firstReleasedKey_some_spec vm 16 0 k hfk
      constructor
      · intro _
        exact ⟨k, by omega, hs, hp,
          fun j hj => hmin j (Nat.zero_le _) hj, hvm.symm⟩
      · intro hnone
        exact absurd ⟨hs, hp⟩ (hnone k (by omega))
    | none =>
      rw [hfk] at hrun
      simp only [StepResult.ran.injEq] at hrun
      obtain ⟨hvm, _⟩ := hrun
      constructor
      · rintro ⟨k, hk16, hs, hp⟩
        exact absurd ⟨hs, hp⟩
          (firstReleasedKey_none_spec vm 16 0 hfk k (Nat.zero_le _) (by omega))
      · intro _
        exact hvm.symm

theorem store_keypress_spec_witness :
    store_keypress keyWitnessVM 0 =
      .ran (vmAfter (store_keypress keyWitnessVM 0) keyWitnessVM)
        (opDurNs sampleSettings 200) ∧
    (((∃ k, k < 16 ∧ keyWitnessVM.keypad_shadow k = true ∧
          keyWitnessVM.keypad k = false) →
        ∃ k, k < 16 ∧ keyWitnessVM.keypad_shadow k = true ∧
          keyWitnessVM.keypad k = false ∧
          (∀ j, j < k → ¬(keyWitnessVM.keypad_shadow j = true ∧
             keyWitnessVM.keypad j = false)) ∧
          vmAfter (store_keypress keyWitnessVM 0) keyWitnessVM =
            { keyWitnessVM with
              v := Function.update keyWitnessVM.v 0 k
              pc := keyWitnessVM.pc + 2 }) ∧
     ((∀ k, k < 16 → ¬(keyWitnessVM.keypad_shadow k = true ∧
          keyWitnessVM.keypad k = false)) →
        vmAfter (store_keypress keyWitnessVM 0) keyWitnessVM = keyWitnessVM)) :=
  ⟨rfl, store_keypress_spec keyWitnessVM 0 _ _ rfl⟩

/-! ## Dispatch coverage -/

/-- C7 counterexample.  Opcode 0x0001 has high nibble 0 and nnn ∉
{0x0E0, 0x0EE}, yet dispatch halts fatally on it instead of treating it
as a no-op. -/
theorem zero_family_cex :
    (0x0001 : Nat) &&& 0xf000 = 0x0000 ∧
    (0x0001 : Nat) &&& 0x0fff ≠ 0x00e0 ∧
    (0x0001 : Nat) &&& 0x0fff ≠ 0x00ee ∧
    isHalt (decode_opcode_and_execute_operation sampleVM 0x0001 0) = true := by
  decide

/-- C7 (amended).  A high-nibble-0 opcode is the legacy-call no-op only
when its low byte is 0x00: such an opcode (when not deferred) changes
nothing but PC, which advances by 2, and does not halt.  Every other
high-nibble-0 opcode whose low byte is not 0xE0 or 0xEE is a fatal
unknown opcode. -/
theorem zero_family_dispatch (vm : VirtualMachine) (opcode rnd : Nat)
    (hz : opcode &&& 0xf000 = 0x0000) :
    (opcode &&& 0x00ff = 0x0000 →
       (MAX_FRAME_TIME_NS < vm.frame_time + opDurNs vm.settings 100 →
          decode_opcode_and_execute_operation vm opcode rnd = .deferred vm) ∧
       (¬ MAX_FRAME_TIME_NS < vm.frame_time + opDurNs vm.settings 100 →
          decode_opcode_and_execute_operation vm opcode rnd =
            .ran { vm with pc := vm.pc + 2 } (opDurNs vm.settings 100))) ∧
    (opcode &&& 0x00ff ≠ 0x0000 → opcode &&& 0x00ff ≠ 0x00e0 →
       opcode &&& 0x00ff ≠ 0x00ee →
       decode_opcode_and_execute_operation vm opcode rnd = .halt) := by
  have hd : decode_opcode_and_execute_operation vm opcode rnd =
      dispatch_family_zero vm opcode := by
    unfold decode_opcode_and_execute_operation
    simp [hz]
  rw [hd]
  constructor
  · intro h00
    unfold dispatch_family_zero
    rw [if_pos h00]
    unfold call_routine budgeted
    constructor
    · intro hover
      simp [hover]
    · intro hover
      simp [hover]
  · intro hn1 hn2 hn3
    unfold dispatch_family_zero
    rw [if_neg hn1, if_neg (fun h => hn2 (by
          have : opcode &&& 0x00ff = 0x00e0 := h
          omega)),
        if_neg (fun h => hn3 (by
          have : opcode &&& 0x00ff = 0x00ee := h
          omega))]
    rfl

theorem zero_family_dispatch_witness :
    (0x0300 : Nat) &&& 0xf000 = 0x0000 ∧
    (((0x0300 : Nat) &&& 0x00ff = 0x0000 →
       (MAX_FRAME_TIME_NS <
            sampleVM.frame_time + opDurNs sampleVM.settings 100 →
          decode_opcode_and_execute_operation sampleVM 0x0300 0 =
            .deferred sampleVM) ∧
       (¬ MAX_FRAME_TIME_NS <
            sampleVM.frame_time + opDurNs sampleVM.settings 100 →
          decode_opcode_and_execute_operation sampleVM 0x0300 0 =
            .ran { sampleVM with pc := sampleVM.pc + 2 }
              (opDurNs sampleVM.settings 100))) ∧
     ((0x0300 : Nat) &&& 0x00ff ≠ 0x0000 →
        (0x0300 : Nat) &&& 0x00ff ≠ 0x00e0 →
        (0x0300 : Nat) &&& 0x00ff ≠ 0x00ee →
        decode_opcode_and_execute_operation sampleVM 0x0300 0 = .halt)) :=
  ⟨by decide, zero_family_dispatch sampleVM 0x0300 0 (by decide)⟩

/-- C6 counterexample.  Opcode 0x8008 matches none of the listed
operation patterns, yet dispatch does not halt: the 8-family catch-all
runs the 8XY0 clone handler. -/
theorem unlisted_opcode_cex :
    specListedOpcode 0x8008 = false ∧
    isHalt (decode_opcode_and_execute_operation sampleVM 0x8008 0) = false ∧
    isRan (decode_opcode_and_execute_operation sampleVM 0x8008 0) = true := by
  decide

/-- C6 (amended).  An opcode matching none of the listed patterns is a
fatal unknown opcode, except inside three families whose dispatch arm
ignores the discriminating nibble: any 0x5xyn runs the 5XY0 handler, any
0x9xyn runs the 9XY0 handler, and any 0x8xyn with unlisted low nibble
runs the 8XY0 clone handler. -/
theorem unlisted_opcode_dispatch (vm : VirtualMachine) (opcode rnd : Nat)
    (hspec : specListedOpcode opcode = false) :
    (opcode &&& 0xf000 = 0x5000 →
       decode_opcode_and_execute_operation vm opcode rnd =
         skip_if_eq vm (opX opcode) (opY opcode)) ∧
    (opcode &&& 0xf000 = 0x8000 →
       decode_opcode_and_execute_operation vm opcode rnd =
         clone vm (opX opcode) (opY opcode)) ∧
    (opcode &&& 0xf000 = 0x9000 →
       decode_opcode_and_execute_operation vm opcode rnd =
         skip_if_neq vm (opX opcode) (opY opcode)) ∧
    (opcode &&& 0xf000 ≠ 0x5000 → opcode &&& 0xf000 ≠ 0x8000 →
       opcode &&& 0xf000 ≠ 0x9000 →
       decode_opcode_and_execute_operation vm opcode rnd = .halt) := by
  refine ⟨?_, ?_, ?_, ?_⟩
  · intro h5
    unfold decode_opcode_and_execute_operation
    simp [h5]
  · intro h8
    have hd : decode_opcode_and_execute_operation vm opcode rnd =
        dispatch_family_eight vm opcode := by
      unfold decode_opcode_and_execute_operation
      simp [h8]
    rw [hd]
    have hT : specListedOpcode opcode ≠ true := by simp [hspec]
    have g1 : ¬ (opcode &&& 0xf00f = 0x8001) := fun hc =>
      hT (by simp [specListedOpcode, h8, hc])
    have g2 : ¬ (opcode &&& 0xf00f = 0x8002) := fun hc =>
      hT (by simp [specListedOpcode, h8, hc])
    have g3 : ¬ (opcode &&& 0xf00f = 0x8003) := fun hc =>
      hT (by simp [specListedOpcode, h8, hc])
    have g4 : ¬ (opcode &&& 0xf00f = 0x8004) := fun hc =>
      hT (by simp [specListedOpcode, h8, hc])
    have g5 : ¬ (opcode &&& 0xf00f = 0x8005) := fun hc =>
      hT (by simp [specListedOpcode, h8, hc])
    have g6 : ¬ (opcode &&& 0xf00f = 0x8006) := fun hc =>
      hT (by simp [specListedOpcode, h8, hc])
    have g7 : ¬ (opcode &&& 0xf00f = 0x8007) := fun hc =>
      hT (by simp [specListedOpcode, h8, hc])
    have g8 : ¬ (opcode &&& 0xf00f = 0x800e) := fun hc =>
      hT (by simp [specListedOpcode, h8, hc])
    unfold dispatch_family_eight
    rw [if_neg g1, if_neg g2, if_neg g3, if_neg g4, if_neg g5, if_neg g6,
      if_neg g7, if_neg g8]
  · intro h9
    unfold decode_opcode_and_execute_operation
    simp [h9]
  · intro hn5 hn8 hn9
    unfold decode_opcode_and_execute_operation
    by_cases h0 : opcode &&& 0xf000 = 0x0000
    · simp [specListedOpcode, h0] at hspec
    by_cases h1 : opcode &&& 0xf000 = 0x1000
    · simp [specListedOpcode, h1] at hspec
    by_cases h2 : opcode &&& 0xf000 = 0x2000
    · simp [specListedOpcode, h2] at hspec
    by_cases h3 : opcode &&& 0xf000 = 0x3000
    · simp [specListedOpcode, h3] at hspec
    by_cases h4 : opcode &&& 0xf000 = 0x4000
    · simp [specListedOpcode, h4] at hspec
    by_cases h6 : opcode &&& 0xf000 = 0x6000
    · simp [specListedOpcode, h6] at hspec
    by_cases h7 : opcode &&& 0xf000 = 0x7000
    · simp [specListedOpcode, h7] at hspec
    by_cases ha : opcode &&& 0xf000 = 0xa000
    · simp [specListedOpcode, ha] at hspec
    by_cases hb : opcode &&& 0xf000 = 0xb000
    · simp [specListedOpcode, hb] at hspec
    by_cases hc : opcode &&& 0xf000 = 0xc000
    · simp [specListedOpcode, hc] at hspec
    by_cases hd : opcode &&& 0xf000 = 0xd000
    · simp [specListedOpcode, hd] at hspec
    by_cases he : opcode &&& 0xf000 = 0xe000
    · have hT : specListedOpcode opcode ≠ true := by simp [hspec]
      have ge1 : ¬ (opcode &&& 0xf0ff = 0xe09e) := fun hc =>
        hT (by simp [specListedOpcode, he, hc])
      have ge2 : ¬ (opcode &&& 0xf0ff = 0xe0a1) := fun hc =>
        hT (by simp [specListedOpcode, he, hc])
      simp only [h0, h1, h2, h3, h4, hn5, h6, h7, hn8, hn9, ha, hb, hc, hd,
        he, if_false, if_true, reduceIte]
      unfold dispatch_family_e
      rw [if_neg ge1, if_neg ge2]
      rfl
    by_cases hf : opcode &&& 0xf000 = 0xf000
    · have hT : specListedOpcode opcode ≠ true := by simp [hspec]
      have gf1 : ¬ (opcode &&& 0xf0ff = 0xf007) := fun hc =>
        hT (by simp [specListedOpcode, hf, hc])
      have gf2 : ¬ (opcode &&& 0xf0ff = 0xf00a) := fun hc =>
        hT (by simp [specListedOpcode, hf, hc])
      have gf3 : ¬ (opcode &&& 0xf0ff = 0xf015) := fun hc =>
        hT (by simp [specListedOpcode, hf, hc])
      have gf4 : ¬ (opcode &&& 0xf0ff = 0xf018) := fun hc =>
        hT (by simp [specListedOpcode, hf, hc])
      have gf5 : ¬ (opcode &&& 0xf0ff = 0xf01e) := fun hc =>
        hT (by simp [specListedOpcode, hf, hc])
      have gf6 : ¬ (opcode &&& 0xf0ff = 0xf029) := fun hc =>
        hT (by simp [specListedOpcode, hf, hc])
      have gf7 : ¬ (opcode &&& 0xf0ff = 0xf033) := fun hc =>
        hT (by simp [specListedOpcode, hf, hc])
      have gf8 : ¬ (opcode &&& 0xf0ff = 0xf055) := fun hc =>
        hT (by simp [specListedOpcode, hf, hc])
      have gf9 : ¬ (opcode &&& 0xf0ff = 0xf065) := fun hc =>
        hT (by simp [specListedOpcode, hf, hc])
      simp only [h0, h1, h2, h3, h4, hn5, h6, h7, hn8, hn9, ha, hb, hc, hd,
        he, hf, if_false, if_true, reduceIte]
      unfold dispatch_family_f
      rw [if_neg gf1, if_neg gf2, if_neg gf3, if_neg gf4, if_neg gf5,
        if_neg gf6, if_neg gf7, if_neg gf8, if_neg gf9]
      rfl
    simp [h0, h1, h2, h3, h4, hn5, h6, h7, hn8, hn9, ha, hb, hc, hd, he, hf,
      invalid_operation]

theorem unlisted_opcode_dispatch_witness :
    specListedOpcode 0xe000 = false ∧
    (((0xe000 : Nat) &&& 0xf000 = 0x5000 →
        decode_opcode_and_execute_operation sampleVM 0xe000 0 =
          skip_if_eq sampleVM (opX 0xe000) (opY 0xe000)) ∧
     ((0xe000 : Nat) &&& 0xf000 = 0x8000 →
        decode_opcode_and_execute_operation sampleVM 0xe000 0 =
          clone sampleVM (opX 0xe000) (opY 0xe000)) ∧
     ((0xe000 : Nat) &&& 0xf000 = 0x9000 →
        decode_opcode_and_execute_operation sampleVM 0xe000 0 =
          skip_if_neq sampleVM (opX 0xe000) (opY 0xe000)) ∧
     ((0xe000 : Nat) &&& 0xf000 ≠ 0x5000 →
        (0xe000 : Nat) &&& 0xf000 ≠ 0x8000 →
        (0xe000 : Nat) &&& 0xf000 ≠ 0x9000 →
        decode_opcode_and_execute_operation sampleVM 0xe000 0 = .halt)) :=
  ⟨by decide, unlisted_opcode_dispatch sampleVM 0xe000 0 (by decide)⟩

/-! ## Sprite drawing: pointwise characterization of the pixel loop -/

theorem rowHits_zero (x yRow s cp j : Nat) : ¬ rowHits x yRow s cp 0 j := by
  rintro ⟨k, hk, -⟩
  omega

theorem rowHits_of_break (x yRow s cp rem j : Nat) (h : 63 < x + cp) :
    ¬ rowHits x yRow s cp rem j := by
  rintro ⟨k, hk, hle, -⟩
  omega

theorem rowHits_succ_iff (x yRow s cp rem j : Nat) :
    rowHits x yRow s cp (rem + 1) j ↔
      (x + cp ≤ 63 ∧ j = yRow * 64 + (x + cp) ∧ (s >>> cp) % 2 = 1) ∨
      rowHits x yRow s (cp + 1) rem j := by
  constructor
  · rintro ⟨k, hk, hle, hj, hbit⟩
    cases k with
    | zero =>
      exact Or.inl ⟨hle, hj, hbit⟩
    | succ k' =>
      have he : cp + (k' + 1) = cp + 1 + k' := by omega
      rw [he] at hle hj hbit
      exact Or.inr ⟨k', by omega, hle, hj, hbit⟩
  · rintro (⟨hle, hj, hbit⟩ | ⟨k, hk, hle, hj, hbit⟩)
    · exact ⟨0, by omega, hle, hj, hbit⟩
    · have he : cp + 1 + k = cp + (k + 1) := by omega
      rw [he] at hle hj hbit
      exact ⟨k + 1, by omega, hle, hj, hbit⟩

theorem rowHits_not_self (x yRow s cp n : Nat) (_hle : x + cp ≤ 63) :
    ¬ rowHits x yRow s (cp + 1) n (yRow * 64 + (x + cp)) := by
  rintro ⟨k, hk, hle2, hj, -⟩
  omega

theorem rowHits_self_iff (x yRow s cp n : Nat) (hle : x + cp ≤ 63) :
    rowHits x yRow s cp (n + 1) (yRow * 64 + (x + cp)) ↔
      (s >>> cp) % 2 = 1 := by
  rw [rowHits_succ_iff]
  constructor
  · rintro (⟨-, -, hbit⟩ | hlater)
    · exact hbit
    · exact absurd hlater (rowHits_not_self x yRow s cp n hle)
  · intro hbit
    exact Or.inl ⟨hle, rfl, hbit⟩

theorem drawPixelStep_fst_apply (fb : Nat → Bool) (col : Bool)
    (idx sp j : Nat) :
    (drawPixelStep fb col idx sp).1 j =
      if j = idx ∧ sp = 1 then !(fb j) else fb j := by
  by_cases hsp : sp = 1 <;> by_cases hj : j = idx
  · subst hj
    cases hfb : fb j <;>
      simp [drawPixelStep, hsp, hfb, Function.update_apply]
  · cases hfb : fb idx <;>
      simp [drawPixelStep, hsp, hfb, hj, Function.update_apply]
  · subst hj
    simp [drawPixelStep, hsp]
  · simp [drawPixelStep, hsp, hj]

theorem drawPixelStep_snd (fb : Nat → Bool) (col : Bool) (idx sp : Nat) :
    ((drawPixelStep fb col idx sp).2 = true ↔
      col = true ∨ (sp = 1 ∧ fb idx = true)) := by
  by_cases hsp : sp = 1
  · cases hfb : fb idx <;> simp [drawPixelStep, hsp, hfb]
  · simp [drawPixelStep, hsp]

theorem drawPixels_fst_apply (x yRow s : Nat) :
    ∀ rem cp fb col j,
      (drawPixels x yRow s cp rem fb col).1 j =
        if rowHits x yRow s cp rem j then !(fb j) else fb j := by
  intro rem
  induction rem with
  | zero =>
    intro cp fb col j
    rw [if_neg (rowHits_zero x yRow s cp j)]
    rfl
  | succ n ih =>
    intro cp fb col j
    simp only [drawPixels]
    by_cases hbrk : 63 < x + cp
    · rw [if_pos hbrk, if_neg (rowHits_of_break x yRow s cp (n + 1) j hbrk)]
    · rw [if_neg hbrk]
      dsimp only
      rw [ih (cp + 1) _ _ j, drawPixelStep_fst_apply]
      by_cases hj : j = yRow * 64 + (x + cp)
      · subst hj
        by_cases hsp : (s >>> cp) % 2 = 1
        · have h1 : ¬ rowHits x yRow s (cp + 1) n (yRow * 64 + (x + cp)) :=
            rowHits_not_self x yRow s cp n (by omega)
          have h2 : rowHits x yRow s cp (n + 1) (yRow * 64 + (x + cp)) :=
            (rowHits_self_iff x yRow s cp n (by omega)).mpr hsp
          simp [h1, h2, hsp]
        · have h1 : ¬ rowHits x yRow s (cp + 1) n (yRow * 64 + (x + cp)) :=
            rowHits_not_self x yRow s cp n (by omega)
          have h2 : ¬ rowHits x yRow s cp (n + 1) (yRow * 64 + (x + cp)) :=
            fun hh => hsp ((rowHits_self_iff x yRow s cp n (by omega)).mp hh)
          simp [h1, h2, hsp]
      · have h3 : rowHits x yRow s cp (n + 1) j ↔
            rowHits x yRow s (cp + 1) n j := by
          rw [rowHits_succ_iff]
          simp [hj]
        simp [hj, h3]

theorem rowCollides_zero (x yRow s cp : Nat) (fb : Nat → Bool) :
    ¬ rowCollides x yRow s cp 0 fb := by
  rintro ⟨k, hk, -⟩
  omega

theorem rowCollides_of_break (x yRow s cp rem : Nat) (fb : Nat → Bool)
    (h : 63 < x + cp) : ¬ rowCollides x yRow s cp rem fb := by
  rintro ⟨k, hk, hle, -⟩
  omega

theorem rowCollides_succ_iff (x yRow s cp rem : Nat) (fb : Nat → Bool) :
    rowCollides x yRow s cp (rem + 1) fb ↔
      (x + cp ≤ 63 ∧ (s >>> cp) % 2 = 1 ∧
        fb (yRow * 64 + (x + cp)) = true) ∨
      rowCollides x yRow s (cp + 1) rem fb := by
  constructor
  · rintro ⟨k, hk, hle, hbit, hfb⟩
    cases k with
    | zero =>
      exact Or.inl ⟨hle, hbit, hfb⟩
    | succ k' =>
      have he : cp + (k' + 1) = cp + 1 + k' := by omega
      rw [he] at hle hbit hfb
      exact Or.inr ⟨k', by omega, hle, hbit, hfb⟩
  · rintro (⟨hle, hbit, hfb⟩ | ⟨k, hk, hle, hbit, hfb⟩)
    · exact ⟨0, by omega, hle, hbit, hfb⟩
    · have he : cp + 1 + k = cp + (k + 1) := by omega
      rw [he] at hle hbit hfb
      exact ⟨k + 1, by omega, hle, hbit, hfb⟩

theorem rowCollides_congr (x yRow s cp rem : Nat) (fb fb' : Nat → Bool)
    (h : ∀ k, k < rem → x + (cp + k) ≤ 63 →
      fb' (yRow * 64 + (x + (cp + k))) = fb (yRow * 64 + (x + (cp + k)))) :
    (rowCollides x yRow s cp rem fb' ↔ rowCollides x yRow s cp rem fb) := by
  constructor
  · rintro ⟨k, hk, hle, hbit, hfb⟩
    refine ⟨k, hk, hle, hbit, ?_⟩
    rw [← h k hk hle]
    exact hfb
  · rintro ⟨k, hk, hle, hbit, hfb⟩
    refine ⟨k, hk, hle, hbit, ?_⟩
    rw [h k hk hle]
    exact hfb

theorem drawPixels_snd_eq (x yRow s : Nat) :
    ∀ rem cp fb col,
      ((drawPixels x yRow s cp rem fb col).2.1 = true ↔
        col = true ∨ rowCollides x yRow s cp rem fb) := by
  intro rem
  induction rem with
  | zero =>
    intro cp fb col
    simp [drawPixels, rowCollides_zero x yRow s cp fb]
  | succ n ih =>
    intro cp fb col
    simp only [drawPixels]
    by_cases hbrk : 63 < x + cp
    · rw [if_pos hbrk]
      simp [rowCollides_of_break x yRow s cp (n + 1) fb hbrk]
    · rw [if_neg hbrk]
      dsimp only
      rw [ih (cp + 1) _ _, drawPixelStep_snd]
      have hcongr : rowCollides x yRow s (cp + 1) n
          (drawPixelStep fb col (yRow * 64 + (x + cp)) ((s >>> cp) % 2)).1 ↔
          rowCollides x yRow s (cp + 1) n fb := by
        refine rowCollides_congr x yRow s (cp + 1) n fb _ ?_
        intro k hk hle
        rw [drawPixelStep_fst_apply]
        rw [if_neg ?_]
        rintro ⟨he, -⟩
        omega
      rw [hcongr, rowCollides_succ_iff]
      have hle : x + cp ≤ 63 := by omega
      simp only [hle, true_and]
      tauto

/-! ## Sprite drawing: pointwise characterization of the row loop -/

theorem spriteHits_zero (mem : Nat → Nat) (i x y cr j : Nat) :
    ¬ spriteHits mem i x y cr 0 j := by
  rintro ⟨r, hr, -⟩
  omega

theorem spriteHits_of_break (mem : Nat → Nat) (i x y cr rem j : Nat)
    (h : 31 < y + cr) : ¬ spriteHits mem i x y cr rem j := by
  rintro ⟨r, hr, hle, -⟩
  omega

theorem spriteHits_succ_iff (mem : Nat → Nat) (i x y cr rem j : Nat) :
    spriteHits mem i x y cr (rem + 1) j ↔
      (y + cr ≤ 31 ∧
        rowHits x (y + cr) (reverseBits8 (mem (i + cr))) 0 8 j) ∨
      spriteHits mem i x y (cr + 1) rem j := by
  constructor
  · rintro ⟨r, hr, hle, hrow⟩
    cases r with
    | zero =>
      exact Or.inl ⟨hle, hrow⟩
    | succ r' =>
      have he : cr + (r' + 1) = cr + 1 + r' := by omega
      rw [he] at hle hrow
      exact Or.inr ⟨r', by omega, hle, hrow⟩
  · rintro (⟨hle, hrow⟩ | ⟨r, hr, hle, hrow⟩)
    · exact ⟨0, by omega, hle, hrow⟩
    · have he : cr + 1 + r = cr + (r + 1) := by omega
      rw [he] at hle hrow
      exact ⟨r + 1, by omega, hle, hrow⟩

theorem spriteCollides_zero (mem : Nat → Nat) (i x y cr : Nat)
    (fb : Nat → Bool) : ¬ spriteCollides mem i x y cr 0 fb := by
  rintro ⟨r, hr, -⟩
  omega

theorem spriteCollides_of_break (mem : Nat → Nat) (i x y cr rem : Nat)
    (fb : Nat → Bool) (h : 31 < y + cr) :
    ¬ spriteCollides mem i x y cr rem fb := by
  rintro ⟨r, hr, hle, -⟩
  omega

theorem spriteCollides_succ_iff (mem : Nat → Nat) (i x y cr rem : Nat)
    (fb : Nat → Bool) :
    spriteCollides mem i x y cr (rem + 1) fb ↔
      (y + cr ≤ 31 ∧
        rowCollides x (y + cr) (reverseBits8 (mem (i + cr))) 0 8 fb) ∨
      spriteCollides mem i x y (cr + 1) rem fb := by
  constructor
  · rintro ⟨r, hr, hle, hrow⟩
    cases r with
    | zero =>
      exact Or.inl ⟨hle, hrow⟩
    | succ r' =>
      have he : cr + (r' + 1) = cr + 1 + r' := by omega
      rw [he] at hle hrow
      exact Or.inr ⟨r', by omega, hle, hrow⟩
  · rintro (⟨hle, hrow⟩ | ⟨r, hr, hle, hrow⟩)
    · exact ⟨0, by omega, hle, hrow⟩
    · have he : cr + 1 + r = cr + (r + 1) := by omega
      rw [he] at hle hrow
      exact ⟨r + 1, by omega, hle, hrow⟩

theorem spriteHits_later_disjoint (mem : Nat → Nat)
    (i x y cr n j : Nat) (s : Nat)
    (hlater : spriteHits mem i x y (cr + 1) n j) :
    ¬ rowHits x (y + cr) s 0 8 j := by
  rintro ⟨k, hk, hle, hj, -⟩
  obtain ⟨r, hr, hle2, k', hk', hle', hj', -⟩ := hlater
  omega

theorem spriteCollides_congr (mem : Nat → Nat) (i x y cr rem : Nat)
    (fb fb' : Nat → Bool)
    (h : ∀ r k, r < rem → y + (cr + r) ≤ 31 → k < 8 → x + k ≤ 63 →
      fb' ((y + (cr + r)) * 64 + (x + k)) =
        fb ((y + (cr + r)) * 64 + (x + k))) :
    (spriteCollides mem i x y cr rem fb' ↔
      spriteCollides mem i x y cr rem fb) := by
  constructor
  · rintro ⟨r, hr, hle, k, hk, hle', hbit, hfb⟩
    refine ⟨r, hr, hle, k, hk, hle', hbit, ?_⟩
    simp only [Nat.zero_add] at hfb ⊢
    rw [← h r k hr hle hk (by omega)]
    exact hfb
  · rintro ⟨r, hr, hle, k, hk, hle', hbit, hfb⟩
    refine ⟨r, hr, hle, k, hk, hle', hbit, ?_⟩
    simp only [Nat.zero_add] at hfb ⊢
    rw [h r k hr hle hk (by omega)]
    exact hfb

theorem drawRows_some_spec (mem : Nat → Nat) (i x y : Nat) :
    ∀ rem cr fb col fb' col',
      (drawRows mem i x y cr rem fb col).1 = some (fb', col') →
      (∀ j, fb' j =
        if spriteHits mem i x y cr rem j then !(fb j) else fb j) ∧
      (col' = true ↔ col = true ∨ spriteCollides mem i x y cr rem fb) := by
  intro rem
  induction rem with
  | zero =>
    intro cr fb col fb' col' hsome
    simp only [drawRows, Option.some.injEq, Prod.mk.injEq] at hsome
    obtain ⟨hfb, hcol⟩ := hsome
    subst hfb
    subst hcol
    exact ⟨fun j => by rw [if_neg (spriteHits_zero mem i x y cr j)],
      by simp [spriteCollides_zero mem i x y cr fb]⟩
  | succ n ih =>
    intro cr fb col fb' col' hsome
    simp only [drawRows] at hsome
    by_cases hbrk : 31 < y + cr
    · rw [if_pos hbrk] at hsome
      simp only [Option.some.injEq, Prod.mk.injEq] at hsome
      obtain ⟨hfb, hcol⟩ := hsome
      subst hfb
      subst hcol
      exact ⟨fun j => by
          rw [if_neg (spriteHits_of_break mem i x y cr (n + 1) j hbrk)],
        by simp [spriteCollides_of_break mem i x y cr (n + 1) fb hbrk]⟩
    · rw [if_neg hbrk] at hsome
      by_cases hmem : i + cr < 4096
      · rw [if_pos hmem] at hsome
        dsimp only at hsome
        obtain ⟨hfb, hcol⟩ := ih (cr + 1) _ _ fb' col' hsome
        have hple : y + cr ≤ 31 := by omega
        constructor
        · intro j
          rw [hfb j, drawPixels_fst_apply]
          by_cases hlater : spriteHits mem i x y (cr + 1) n j
          · rw [if_pos hlater,
              if_neg (spriteHits_later_disjoint mem i x y cr n j _ hlater),
              if_pos ((spriteHits_succ_iff mem i x y cr n j).mpr
                (Or.inr hlater))]
          · rw [if_neg hlater]
            by_cases hrow : rowHits x (y + cr)
                (reverseBits8 (mem (i + cr))) 0 8 j
            · rw [if_pos hrow,
                if_pos ((spriteHits_succ_iff mem i x y cr n j).mpr
                  (Or.inl ⟨hple, hrow⟩))]
            · rw [if_neg hrow, if_neg ?_]
              intro hh
              rcases (spriteHits_succ_iff mem i x y cr n j).mp hh with
                ⟨-, hr⟩ | hl
              · exact hrow hr
              · exact hlater hl
        · rw [hcol, drawPixels_snd_eq]
          have hcongr : spriteCollides mem i x y (cr + 1) n
              (drawPixels x (y + cr) (reverseBits8 (mem (i + cr)))
                0 8 fb col).1 ↔
              spriteCollides mem i x y (cr + 1) n fb := by
            refine spriteCollides_congr mem i x y (cr + 1) n fb _ ?_
            intro r k hr hle hk hle'
            rw [drawPixels_fst_apply]
            rw [if_neg ?_]
            rintro ⟨k', hk', hle2, hj2, -⟩
            omega
          rw [hcongr, spriteCollides_succ_iff]
          simp only [hple, true_and]
          tauto
      · rw [if_neg hmem] at hsome
        exact absurd hsome (by simp)

/-! ## DXYN double draw -/

theorem draw_sprite_ran (vm : VirtualMachine) (X Y n : Nat)
    (vm' : VirtualMachine) (c : Nat)
    (h : draw_sprite vm X Y n = .ran vm' c) :
    ∃ fb' col,
      (drawRows vm.mem vm.i (drawStartX vm X) (drawStartY vm Y)
        0 n vm.fb false).1 = some (fb', col) ∧
      vm' = { vm with
        fb := fb'
        v := Function.update vm.v 15 (if col then 1 else 0)
        pc := vm.pc + 2 } := by
  simp only [draw_sprite, budgeted] at h
  split at h
  · exact absurd h (by simp)
  · cases hd : (drawRows vm.mem vm.i (drawStartX vm X) (drawStartY vm Y)
        0 n vm.fb false).1 with
    | none =>
      rw [hd] at h
      exact absurd h (by simp)
    | some p =>
      rw [hd] at h
      obtain ⟨fb', col⟩ := p
      simp only [StepResult.ran.injEq] at h
      exact ⟨fb', col, rfl, h.1.symm⟩

/-- C4 counterexample.  With the top-left pixel on before the first draw
and the single sprite bit covering it: both draws run, yet the second
draw reports no collision (VF = 0), refuting "the second draw reports
collision for every sprite bit whose pixel was on before the first
draw". -/
theorem draw_twice_collision_polarity_cex :
    drawCexVM.fb 0 = true ∧
    (reverseBits8 (drawCexVM.mem 0) >>> 0) % 2 = 1 ∧
    drawStartX drawCexVM 0 = 0 ∧ drawStartY drawCexVM 1 = 0 ∧
    isRan (draw_sprite drawCexVM 0 1 1) = true ∧
    isRan (draw_sprite (vmAfter (draw_sprite drawCexVM 0 1 1) drawCexVM)
      0 1 1) = true ∧
    (vmAfter (draw_sprite (vmAfter (draw_sprite drawCexVM 0 1 1) drawCexVM)
      0 1 1) drawCexVM).v 15 = 0 := by
  decide

/-- C4 (amended).  Drawing the identical sprite twice in succession (both
draws run, and the start coordinates are unchanged between them) restores
the frame buffer exactly; the second draw reports collision (VF = 1) if
and only if some non-clipped set sprite bit covers a pixel that was OFF
before the first draw (the first draw turned exactly those pixels on). -/
theorem draw_twice_restores_fb (vm : VirtualMachine) (X Y n : Nat)
    (vm1 vm2 : VirtualMachine) (c1 c2 : Nat)
    (h1 : draw_sprite vm X Y n = .ran vm1 c1)
    (h2 : draw_sprite vm1 X Y n = .ran vm2 c2)
    (hX : vm1.v X = vm.v X) (hY : vm1.v Y = vm.v Y) :
    vm2.fb = vm.fb ∧
    (vm2.v 15 = 1 ↔
      ∃ r, r < n ∧ drawStartY vm Y + r ≤ 31 ∧
        ∃ k, k < 8 ∧ drawStartX vm X + k ≤ 63 ∧
          (reverseBits8 (vm.mem (vm.i + r)) >>> k) % 2 = 1 ∧
          vm.fb ((drawStartY vm Y + r) * 64 +
            (drawStartX vm X + k)) = false) := by
  obtain ⟨fb1, col1, hd1, hvm1⟩ := draw_sprite_ran vm X Y n vm1 c1 h1
  obtain ⟨fb2, col2, hd2, hvm2⟩ := draw_sprite_ran vm1 X Y n vm2 c2 h2
  have hsx : drawStartX vm1 X = drawStartX vm X := by
    unfold drawStartX
    rw [hX, hvm1]
  have hsy : drawStartY vm1 Y = drawStartY vm Y := by
    unfold drawStartY
    rw [hY, hvm1]
  have hfb1eq : vm1.fb = fb1 := by rw [hvm1]
  have hmemeq : vm1.mem = vm.mem := by rw [hvm1]
  have hieq : vm1.i = vm.i := by rw [hvm1]
  have hd2' : (drawRows vm.mem vm.i (drawStartX vm X) (drawStartY vm Y)
      0 n fb1 false).1 = some (fb2, col2) := by
    rw [← hsx, ← hsy, ← hmemeq, ← hieq, ← hfb1eq]
    exact hd2
  obtain ⟨hfb1c, -⟩ := drawRows_some_spec vm.mem vm.i
    (drawStartX vm X) (drawStartY vm Y) n 0 vm.fb false fb1 col1 hd1
  obtain ⟨hfb2c, hcol2c⟩ := drawRows_some_spec vm.mem vm.i
    (drawStartX vm X) (drawStartY vm Y) n 0 fb1 false fb2 col2 hd2'
  have hchar : ∀ j,
      spriteHits vm.mem vm.i (drawStartX vm X) (drawStartY vm Y) 0 n j →
      fb1 j = !(vm.fb j) := by
    intro j hH
    rw [hfb1c j, if_pos hH]
  constructor
  · have hfb2vm : vm2.fb = fb2 := by rw [hvm2]
    rw [hfb2vm]
    funext j
    rw [hfb2c j, hfb1c j]
    by_cases hH : spriteHits vm.mem vm.i (drawStartX vm X)
        (drawStartY vm Y) 0 n j
    · simp [hH]
    · simp [hH]
  · have hv2 : vm2.v 15 = (if col2 then 1 else 0) := by
      rw [hvm2]
      simp
    rw [hv2]
    have hone : ((if col2 then (1 : Nat) else 0) = 1 ↔ col2 = true) := by
      cases col2 <;> simp
    rw [hone, hcol2c]
    constructor
    · rintro (hfalse | hcol)
      · exact absurd hfalse (by simp)
      · obtain ⟨r, hr, hle, k, hk, hlek, hbit, hfb⟩ := hcol
        refine ⟨r, by omega, by omega, k, by omega, by omega, ?_, ?_⟩
        · have he : (0 : Nat) + k = k := by omega
          have he2 : (0 : Nat) + r = r := by omega
          rw [he2] at hbit
          rw [he] at hbit
          exact hbit
        · have hHj : spriteHits vm.mem vm.i (drawStartX vm X)
              (drawStartY vm Y) 0 n
              ((drawStartY vm Y + (0 + r)) * 64 +
                (drawStartX vm X + (0 + k))) :=
            ⟨r, hr, hle, k, hk, hlek, rfl, hbit⟩
          have := hchar _ hHj
          rw [this] at hfb
          have hoff : vm.fb ((drawStartY vm Y + (0 + r)) * 64 +
              (drawStartX vm X + (0 + k))) = false := by
            cases hvb : vm.fb ((drawStartY vm Y + (0 + r)) * 64 +
                (drawStartX vm X + (0 + k)))
            · rfl
            · rw [hvb] at hfb
              simp at hfb
          rw [show (drawStartY vm Y + r) * 64 + (drawStartX vm X + k) =
              (drawStartY vm Y + (0 + r)) * 64 +
                (drawStartX vm X + (0 + k)) from by omega]
          exact hoff
    · rintro ⟨r, hr, hle, k, hk, hlek, hbit, hoff⟩
      refine Or.inr ⟨r, by omega, by omega, k, by omega, by omega, ?_, ?_⟩
      · have he : (0 : Nat) + k = k := by omega
        have he2 : (0 : Nat) + r = r := by omega
        rw [he2, he]
        exact hbit
      · have hHj : spriteHits vm.mem vm.i (drawStartX vm X)
            (drawStartY vm Y) 0 n
            ((drawStartY vm Y + (0 + r)) * 64 +
              (drawStartX vm X + (0 + k))) := by
          refine ⟨r, hr, by omega, k, hk, by omega, rfl, ?_⟩
          have he : (0 : Nat) + k = k := by omega
          have he2 : (0 : Nat) + r = r := by omega
          rw [he2, he]
          exact hbit
        rw [hchar _ hHj]
        rw [show (drawStartY vm Y + (0 + r)) * 64 +
            (drawStartX vm X + (0 + k)) =
            (drawStartY vm Y + r) * 64 + (drawStartX vm X + k) from by omega]
        rw [hoff]
        rfl

theorem draw_twice_restores_fb_witness :
    draw_sprite drawWitnessVM 0 1 1 =
      .ran drawW1 (opDurNs sampleSettings 10734) ∧
    draw_sprite drawW1 0 1 1 =
      .ran drawW2 (opDurNs sampleSettings 10734) ∧
    drawW1.v 0 = drawWitnessVM.v 0 ∧ drawW1.v 1 = drawWitnessVM.v 1 ∧
    (drawW2.fb = drawWitnessVM.fb ∧
      (drawW2.v 15 = 1 ↔
        ∃ r, r < 1 ∧ drawStartY drawWitnessVM 1 + r ≤ 31 ∧
          ∃ k, k < 8 ∧ drawStartX drawWitnessVM 0 + k ≤ 63 ∧
            (reverseBits8 (drawWitnessVM.mem (drawWitnessVM.i + r)) >>> k)
              % 2 = 1 ∧
            drawWitnessVM.fb ((drawStartY drawWitnessVM 1 + r) * 64 +
              (drawStartX drawWitnessVM 0 + k)) = false)) :=
  ⟨rfl, rfl, by decide, by decide,
    draw_twice_restores_fb drawWitnessVM 0 1 1 drawW1 drawW2
      (opDurNs sampleSettings 10734) (opDurNs sampleSettings 10734)
      rfl rfl (by decide) (by decide)⟩

/-! ## DXYN frame-buffer access bounds -/

theorem drawPixels_trace_spec (x yRow s : Nat) :
    ∀ rem cp fb col j, j ∈ (drawPixels x yRow s cp rem fb col).2.2 →
      ∃ k, k < rem ∧ x + (cp + k) ≤ 63 ∧ j = yRow * 64 + (x + (cp + k)) := by
  intro rem
  induction rem with
  | zero =>
    intro cp fb col j hj
    simp [drawPixels] at hj
  | succ n ih =>
    intro cp fb col j hj
    simp only [drawPixels] at hj
    by_cases hbrk : 63 < x + cp
    · rw [if_pos hbrk] at hj
      simp at hj
    · rw [if_neg hbrk] at hj
      dsimp only at hj
      rcases List.mem_cons.mp hj with hj0 | hjr
      · exact ⟨0, by omega, by omega, by omega⟩
      · obtain ⟨k, hk, hle, hjeq⟩ := ih (cp + 1) _ _ j hjr
        exact ⟨k + 1, by omega, by omega, by omega⟩

theorem drawRows_trace_spec (mem : Nat → Nat) (i x y : Nat) :
    ∀ rem cr fb col j, j ∈ (drawRows mem i x y cr rem fb col).2 →
      ∃ r, r < rem ∧ y + (cr + r) ≤ 31 ∧
        ∃ k, k < 8 ∧ x + k ≤ 63 ∧
          j = (y + (cr + r)) * 64 + (x + k) := by
  intro rem
  induction rem with
  | zero =>
    intro cr fb col j hj
    simp [drawRows] at hj
  | succ n ih =>
    intro cr fb col j hj
    simp only [drawRows] at hj
    by_cases hbrk : 31 < y + cr
    · rw [if_pos hbrk] at hj
      simp at hj
    · rw [if_neg hbrk] at hj
      by_cases hmem : i + cr < 4096
      · rw [if_pos hmem] at hj
        dsimp only at hj
        rcases List.mem_append.mp hj with hjl | hjr
        · obtain ⟨k, hk, hle, hjeq⟩ := drawPixels_trace_spec x (y + cr)
            (reverseBits8 (mem (i + cr))) 8 0 fb col j hjl
          exact ⟨0, by omega, by omega, k, by omega, by omega, by omega⟩
        · obtain ⟨r, hr, hle, k, hk, hlek, hjeq⟩ := ih (cr + 1) _ _ j hjr
          exact ⟨r + 1, by omega, by omega, k, by omega, by omega, by omega⟩
      · rw [if_neg hmem] at hj
        simp at hj

/-- C10.  Every frame-buffer index read or written by DXYN (the access
trace of its two loops) is in bounds: it is of the form
(startY + row) * 64 + (startX + column) with the row at most 31 and the
column at most 63 — rows falling below the screen and pixels falling off
the right edge are skipped before any access — so the index is at most
2047 and never wraps into a different row. -/
theorem draw_accesses_in_bounds (vm : VirtualMachine) (X Y n : Nat) :
    ∀ j ∈ drawTrace vm X Y n,
      j < 2048 ∧
      ∃ r k, r < n ∧ k < 8 ∧ drawStartY vm Y + r ≤ 31 ∧
        drawStartX vm X + k ≤ 63 ∧
        j = (drawStartY vm Y + r) * 64 + (drawStartX vm X + k) := by
  intro j hj
  obtain ⟨r, hr, hle, k, hk, hlek, hjeq⟩ := drawRows_trace_spec vm.mem vm.i
    (drawStartX vm X) (drawStartY vm Y) n 0 vm.fb false j hj
  refine ⟨by omega, r, k, hr, hk, by omega, by omega, by omega⟩

theorem draw_accesses_in_bounds_witness :
    (0 ∈ drawTrace drawWitnessVM 0 1 1) ∧
    (0 < 2048 ∧
      ∃ r k, r < 1 ∧ k < 8 ∧ drawStartY drawWitnessVM 1 + r ≤ 31 ∧
        drawStartX drawWitnessVM 0 + k ≤ 63 ∧
        0 = (drawStartY drawWitnessVM 1 + r) * 64 +
          (drawStartX drawWitnessVM 0 + k)) :=
  ⟨by decide, draw_accesses_in_bounds drawWitnessVM 0 1 1 0 (by decide)⟩

end Chip8
